import Mathlib

/-!
Shallow embedding of the s2n hash-state abstraction layer
(`src/crypto/s2n_hash.c`) together with executable models of the external
cryptographic primitive library (MD5, SHA-1 and the SHA-2 family), used to
settle the specification claims about the hashing component.

Bytes are modelled as `List Nat` (each entry < 256), machine words as `Nat`
reduced modulo `2^32` or `2^64` where the C code relies on fixed-width
arithmetic.
-/

namespace S2nHash

abbrev Bytes := List Nat

/-! ### 32-bit and 64-bit word helpers -/

def mask32 : Nat := 2 ^ 32 - 1

def mask64 : Nat := 2 ^ 64 - 1

def add32 (a b : Nat) : Nat := (a + b) % 2 ^ 32

def add64 (a b : Nat) : Nat := (a + b) % 2 ^ 64

def not32 (x : Nat) : Nat := x ^^^ mask32

def rotl32 (x n : Nat) : Nat := ((x <<< n) ||| (x >>> (32 - n))) &&& mask32

def rotr32 (x n : Nat) : Nat := ((x >>> n) ||| (x <<< (32 - n))) &&& mask32

def rotr64 (x n : Nat) : Nat := ((x >>> n) ||| (x <<< (64 - n))) &&& mask64

/-- Interpret a little-endian byte list as a word. -/
def leWord (bs : Bytes) : Nat := bs.reverse.foldl (fun acc b => acc * 256 + b) 0

/-- Interpret a big-endian byte list as a word. -/
def beWord (bs : Bytes) : Nat := bs.foldl (fun acc b => acc * 256 + b) 0

/-- `k` little-endian bytes of `n`. -/
def natToLE (n k : Nat) : Bytes := (List.range k).map (fun i => (n >>> (8 * i)) % 256)

/-- `k` big-endian bytes of `n`. -/
def natToBE (n k : Nat) : Bytes := ((List.range k).map (fun i => (n >>> (8 * i)) % 256)).reverse

/-- Split `bs` into consecutive chunks of width `w` (dropping any ragged tail;
padded hash inputs are always an exact multiple of the block size). -/
def chunksOf (w : Nat) (bs : Bytes) : List Bytes :=
  (List.range (bs.length / w)).map (fun i => (bs.drop (w * i)).take w)

/-- Merkle–Damgård padding to a 64-byte block: append `0x80`, zeros, then the
bit length as an 8-byte field (little-endian for MD5, big-endian for SHA). -/
def mdPad (le : Bool) (msg : Bytes) : Bytes :=
  let l := msg.length
  msg ++ [0x80] ++ List.replicate ((119 - l % 64) % 64) 0 ++
    (if le then natToLE (8 * l % 2 ^ 64) 8 else natToBE (8 * l % 2 ^ 64) 8)

/-- Padding to a 128-byte block with a 16-byte big-endian bit length (SHA-384/512). -/
def mdPad128 (msg : Bytes) : Bytes :=
  let l := msg.length
  msg ++ [0x80] ++ List.replicate ((239 - l % 128) % 128) 0 ++ natToBE (8 * l % 2 ^ 128) 16

/-! ### MD5 (RFC 1321) -/

def md5T : List Nat := [
  0xd76aa478, 0xe8c7b756, 0x242070db, 0xc1bdceee, 0xf57c0faf, 0x4787c62a, 0xa8304613, 0xfd469501,
  0x698098d8, 0x8b44f7af, 0xffff5bb1, 0x895cd7be, 0x6b901122, 0xfd987193, 0xa679438e, 0x49b40821,
  0xf61e2562, 0xc040b340, 0x265e5a51, 0xe9b6c7aa, 0xd62f105d, 0x02441453, 0xd8a1e681, 0xe7d3fbc8,
  0x21e1cde6, 0xc33707d6, 0xf4d50d87, 0x455a14ed, 0xa9e3e905, 0xfcefa3f8, 0x676f02d9, 0x8d2a4c8a,
  0xfffa3942, 0x8771f681, 0x6d9d6122, 0xfde5380c, 0xa4beea44, 0x4bdecfa9, 0xf6bb4b60, 0xbebfbc70,
  0x289b7ec6, 0xeaa127fa, 0xd4ef3085, 0x04881d05, 0xd9d4d039, 0xe6db99e5, 0x1fa27cf8, 0xc4ac5665,
  0xf4292244, 0x432aff97, 0xab9423a7, 0xfc93a039, 0x655b59c3, 0x8f0ccc92, 0xffeff47d, 0x85845dd1,
  0x6fa87e4f, 0xfe2ce6e0, 0xa3014314, 0x4e0811a1, 0xf7537e82, 0xbd3af235, 0x2ad7d2bb, 0xeb86d391]

def md5S : List Nat := [
  7, 12, 17, 22, 7, 12, 17, 22, 7, 12, 17, 22, 7, 12, 17, 22,
  5, 9, 14, 20, 5, 9, 14, 20, 5, 9, 14, 20, 5, 9, 14, 20,
  4, 11, 16, 23, 4, 11, 16, 23, 4, 11, 16, 23, 4, 11, 16, 23,
  6, 10, 15, 21, 6, 10, 15, 21, 6, 10, 15, 21, 6, 10, 15, 21]

def md5Round (M : List Nat) (st : Nat × Nat × Nat × Nat) (i : Nat) : Nat × Nat × Nat × Nat :=
  let (a, b, c, d) := st
  let fg : Nat × Nat :=
    if i < 16 then ((b &&& c) ||| (not32 b &&& d), i)
    else if i < 32 then ((d &&& b) ||| (not32 d &&& c), (5 * i + 1) % 16)
    else if i < 48 then (b ^^^ c ^^^ d, (3 * i + 5) % 16)
    else (c ^^^ (b ||| not32 d), (7 * i) % 16)
  let x := add32 (add32 (add32 a fg.1) (md5T.getD i 0)) (M.getD fg.2 0)
  (d, add32 b (rotl32 x (md5S.getD i 0)), b, c)

def md5Block (st : Nat × Nat × Nat × Nat) (blk : Bytes) : Nat × Nat × Nat × Nat :=
  let M := (chunksOf 4 blk).map leWord
  let r := (List.range 64).foldl (md5Round M) st
  (add32 st.1 r.1, add32 st.2.1 r.2.1, add32 st.2.2.1 r.2.2.1, add32 st.2.2.2 r.2.2.2)

/-- The MD5 digest (16 bytes) of a byte sequence. -/
def md5Bytes (msg : Bytes) : Bytes :=
  let r := (chunksOf 64 (mdPad true msg)).foldl md5Block
    (0x67452301, 0xefcdab89, 0x98badcfe, 0x10325476)
  natToLE r.1 4 ++ natToLE r.2.1 4 ++ natToLE r.2.2.1 4 ++ natToLE r.2.2.2 4

/-! ### SHA-1 (FIPS 180) -/

def sha1W (M : List Nat) : List Nat :=
  (List.range 80).foldl (fun w i =>
    if i < 16 then w ++ [M.getD i 0]
    else w ++ [rotl32 ((w.getD (i - 3) 0) ^^^ (w.getD (i - 8) 0) ^^^
      (w.getD (i - 14) 0) ^^^ (w.getD (i - 16) 0)) 1]) []

def sha1Round (w : List Nat) (st : Nat × Nat × Nat × Nat × Nat) (i : Nat) :
    Nat × Nat × Nat × Nat × Nat :=
  let (a, b, c, d, e) := st
  let fk : Nat × Nat :=
    if i < 20 then ((b &&& c) ||| (not32 b &&& d), 0x5a827999)
    else if i < 40 then (b ^^^ c ^^^ d, 0x6ed9eba1)
    else if i < 60 then ((b &&& c) ||| (b &&& d) ||| (c &&& d), 0x8f1bbcdc)
    else (b ^^^ c ^^^ d, 0xca62c1d6)
  (add32 (add32 (add32 (add32 (rotl32 a 5) fk.1) e) fk.2) (w.getD i 0), a, rotl32 b 30, c, d)

def sha1Block (st : Nat × Nat × Nat × Nat × Nat) (blk : Bytes) : Nat × Nat × Nat × Nat × Nat :=
  let w := sha1W ((chunksOf 4 blk).map beWord)
  let r := (List.range 80).foldl (sha1Round w) st
  (add32 st.1 r.1, add32 st.2.1 r.2.1, add32 st.2.2.1 r.2.2.1,
   add32 st.2.2.2.1 r.2.2.2.1, add32 st.2.2.2.2 r.2.2.2.2)

/-- The SHA-1 digest (20 bytes) of a byte sequence. -/
def sha1Bytes (msg : Bytes) : Bytes :=
  let r := (chunksOf 64 (mdPad false msg)).foldl sha1Block
    (0x67452301, 0xefcdab89, 0x98badcfe, 0x10325476, 0xc3d2e1f0)
  natToBE r.1 4 ++ natToBE r.2.1 4 ++ natToBE r.2.2.1 4 ++
    natToBE r.2.2.2.1 4 ++ natToBE r.2.2.2.2 4

/-! ### SHA-224 / SHA-256 -/

def sha256K : List Nat := [
  1116352408, 1899447441, 3049323471, 3921009573, 961987163, 1508970993,
  2453635748, 2870763221, 3624381080, 310598401, 607225278, 1426881987,
  1925078388, 2162078206, 2614888103, 3248222580, 3835390401, 4022224774,
  264347078, 604807628, 770255983, 1249150122, 1555081692, 1996064986,
  2554220882, 2821834349, 2952996808, 3210313671, 3336571891, 3584528711,
  113926993, 338241895, 666307205, 773529912, 1294757372, 1396182291,
  1695183700, 1986661051, 2177026350, 2456956037, 2730485921, 2820302411,
  3259730800, 3345764771, 3516065817, 3600352804, 4094571909, 275423344,
  430227734, 506948616, 659060556, 883997877, 958139571, 1322822218,
  1537002063, 1747873779, 1955562222, 2024104815, 2227730452, 2361852424,
  2428436474, 2756734187, 3204031479, 3329325298]

def sha256W (M : List Nat) : List Nat :=
  (List.range 64).foldl (fun w i =>
    if i < 16 then w ++ [M.getD i 0]
    else
      let s0 := rotr32 (w.getD (i - 15) 0) 7 ^^^ rotr32 (w.getD (i - 15) 0) 18 ^^^
        ((w.getD (i - 15) 0) >>> 3)
      let s1 := rotr32 (w.getD (i - 2) 0) 17 ^^^ rotr32 (w.getD (i - 2) 0) 19 ^^^
        ((w.getD (i - 2) 0) >>> 10)
      w ++ [add32 (add32 s1 (w.getD (i - 7) 0)) (add32 s0 (w.getD (i - 16) 0))]) []

def sha256Round (w : List Nat) (st : List Nat) (i : Nat) : List Nat :=
  let a := st.getD 0 0
  let b := st.getD 1 0
  let c := st.getD 2 0
  let d := st.getD 3 0
  let e := st.getD 4 0
  let f := st.getD 5 0
  let g := st.getD 6 0
  let h := st.getD 7 0
  let S1 := rotr32 e 6 ^^^ rotr32 e 11 ^^^ rotr32 e 25
  let ch := (e &&& f) ^^^ (not32 e &&& g)
  let t1 := add32 h (add32 S1 (add32 ch (add32 (sha256K.getD i 0) (w.getD i 0))))
  let S0 := rotr32 a 2 ^^^ rotr32 a 13 ^^^ rotr32 a 22
  let mj := (a &&& b) ^^^ (a &&& c) ^^^ (b &&& c)
  [add32 t1 (add32 S0 mj), a, b, c, add32 d t1, e, f, g]

def sha256BlockGo (st : List Nat) (blk : Bytes) : List Nat :=
  let w := sha256W ((chunksOf 4 blk).map beWord)
  let r := (List.range 64).foldl (sha256Round w) st
  (st.zip r).map (fun p => add32 p.1 p.2)

def sha256Core (iv : List Nat) (msg : Bytes) : List Nat :=
  (chunksOf 64 (mdPad false msg)).foldl sha256BlockGo iv

/-- The SHA-256 digest (32 bytes) of a byte sequence. -/
def sha256Bytes (msg : Bytes) : Bytes :=
  (sha256Core [0x6a09e667, 0xbb67ae85, 0x3c6ef372, 0xa54ff53a,
               0x510e527f, 0x9b05688c, 0x1f83d9ab, 0x5be0cd19] msg).flatMap
    (fun x => natToBE x 4)

/-- The SHA-224 digest (28 bytes) of a byte sequence. -/
def sha224Bytes (msg : Bytes) : Bytes :=
  ((sha256Core [0xc1059ed8, 0x367cd507, 0x3070dd17, 0xf70e5939,
                0xffc00b31, 0x68581511, 0x64f98fa7, 0xbefa4fa4] msg).flatMap
    (fun x => natToBE x 4)).take 28

/-! ### SHA-384 / SHA-512 -/

def sha512K : List Nat := [
  4794697086780616226, 8158064640168781261, 13096744586834688815, 16840607885511220156,
  4131703408338449720, 6480981068601479193, 10538285296894168987, 12329834152419229976,
  15566598209576043074, 1334009975649890238, 2608012711638119052, 6128411473006802146,
  8268148722764581231, 9286055187155687089, 11230858885718282805, 13951009754708518548,
  16472876342353939154, 17275323862435702243, 1135362057144423861, 2597628984639134821,
  3308224258029322869, 5365058923640841347, 6679025012923562964, 8573033837759648693,
  10970295158949994411, 12119686244451234320, 12683024718118986047, 13788192230050041572,
  14330467153632333762, 15395433587784984357, 489312712824947311, 1452737877330783856,
  2861767655752347644, 3322285676063803686, 5560940570517711597, 5996557281743188959,
  7280758554555802590, 8532644243296465576, 9350256976987008742, 10552545826968843579,
  11727347734174303076, 12113106623233404929, 14000437183269869457, 14369950271660146224,
  15101387698204529176, 15463397548674623760, 17586052441742319658, 1182934255886127544,
  1847814050463011016, 2177327727835720531, 2830643537854262169, 3796741975233480872,
  4115178125766777443, 5681478168544905931, 6601373596472566643, 7507060721942968483,
  8399075790359081724, 8693463985226723168, 9568029438360202098, 10144078919501101548,
  10430055236837252648, 11840083180663258601, 13761210420658862357, 14299343276471374635,
  14566680578165727644, 15097957966210449927, 16922976911328602910, 17689382322260857208,
  500013540394364858, 748580250866718886, 1242879168328830382, 1977374033974150939,
  2944078676154940804, 3659926193048069267, 4368137639120453308, 4836135668995329356,
  5532061633213252278, 6448918945643986474, 6902733635092675308, 7801388544844847127]

def sha512W (M : List Nat) : List Nat :=
  (List.range 80).foldl (fun w i =>
    if i < 16 then w ++ [M.getD i 0]
    else
      let s0 := rotr64 (w.getD (i - 15) 0) 1 ^^^ rotr64 (w.getD (i - 15) 0) 8 ^^^
        ((w.getD (i - 15) 0) >>> 7)
      let s1 := rotr64 (w.getD (i - 2) 0) 19 ^^^ rotr64 (w.getD (i - 2) 0) 61 ^^^
        ((w.getD (i - 2) 0) >>> 6)
      w ++ [add64 (add64 s1 (w.getD (i - 7) 0)) (add64 s0 (w.getD (i - 16) 0))]) []

def not64 (x : Nat) : Nat := x ^^^ mask64

def sha512Round (w : List Nat) (st : List Nat) (i : Nat) : List Nat :=
  let a := st.getD 0 0
  let b := st.getD 1 0
  let c := st.getD 2 0
  let d := st.getD 3 0
  let e := st.getD 4 0
  let f := st.getD 5 0
  let g := st.getD 6 0
  let h := st.getD 7 0
  let S1 := rotr64 e 14 ^^^ rotr64 e 18 ^^^ rotr64 e 41
  let ch := (e &&& f) ^^^ (not64 e &&& g)
  let t1 := add64 h (add64 S1 (add64 ch (add64 (sha512K.getD i 0) (w.getD i 0))))
  let S0 := rotr64 a 28 ^^^ rotr64 a 34 ^^^ rotr64 a 39
  let mj := (a &&& b) ^^^ (a &&& c) ^^^ (b &&& c)
  [add64 t1 (add64 S0 mj), a, b, c, add64 d t1, e, f, g]

def sha512BlockGo (st : List Nat) (blk : Bytes) : List Nat :=
  let w := sha512W ((chunksOf 8 blk).map beWord)
  let r := (List.range 80).foldl (sha512Round w) st
  (st.zip r).map (fun p => add64 p.1 p.2)

def sha512Core (iv : List Nat) (msg : Bytes) : List Nat :=
  (chunksOf 128 (mdPad128 msg)).foldl sha512BlockGo iv

/-- The SHA-512 digest (64 bytes) of a byte sequence. -/
def sha512Bytes (msg : Bytes) : Bytes :=
  (sha512Core [0x6a09e667f3bcc908, 0xbb67ae8584caa73b, 0x3c6ef372fe94f82b, 0xa54ff53a5f1d36f1,
               0x510e527fade682d1, 0x9b05688c2b3e6c1f, 0x1f83d9abfb41bd6b, 0x5be0cd19137e2179]
    msg).flatMap (fun x => natToBE x 8)

/-- The SHA-384 digest (48 bytes) of a byte sequence. -/
def sha384Bytes (msg : Bytes) : Bytes :=
  ((sha512Core [0xcbbb9d5dc1059ed8, 0x629a292a367cd507, 0x9159015a3070dd17, 0x152fecd8f70e5939,
                0x67332667ffc00b31, 0x8eb44a8768581511, 0xdb0c2e0d64f98fa7, 0x47b5481dbefa4fa4]
    msg).flatMap (fun x => natToBE x 8)).take 48

end S2nHash

namespace S2nHash

/-! ### Errors, algorithm codes and the external-failure environment

`s2n_error` models the s2n error kinds raised by `S2N_ERROR` in
`src/crypto/s2n_hash.c`; `SAFETY` is the error raised by the `eq_check`
size-validation macro and `NULL_ERR` the one raised by `notnull_check`
(both from the safety-macro collaborator, modelled from the spec's
error-handling section). -/

inductive s2n_error where
  | HASH_INVALID_ALGORITHM
  | HASH_INIT_FAILED
  | HASH_UPDATE_FAILED
  | HASH_DIGEST_FAILED
  | HASH_COPY_FAILED
  | HASH_WIPE_FAILED
  | SAFETY
  | NULL_ERR
deriving DecidableEq, Repr

/-- The `s2n_hash_algorithm` enum is a C int; algorithm tags are modelled as
`Nat`, with values outside `0..7` playing the role of out-of-range tags. -/
def S2N_HASH_NONE : Nat := 0

def S2N_HASH_MD5 : Nat := 1

def S2N_HASH_SHA1 : Nat := 2

def S2N_HASH_SHA224 : Nat := 3

def S2N_HASH_SHA256 : Nat := 4

def S2N_HASH_SHA384 : Nat := 5

def S2N_HASH_SHA512 : Nat := 6

def S2N_HASH_MD5_SHA1 : Nat := 7

def MD5_DIGEST_LENGTH : Nat := 16

def SHA_DIGEST_LENGTH : Nat := 20

def SHA224_DIGEST_LENGTH : Nat := 28

def SHA256_DIGEST_LENGTH : Nat := 32

def SHA384_DIGEST_LENGTH : Nat := 48

def SHA512_DIGEST_LENGTH : Nat := 64

/-- Modelled from the spec: the state of the external collaborators.  `fips`
is the process-wide certified-mode predicate (`s2n_is_in_fips_mode`), read but
never written by this component.  The `*_ok` fields model whether the
corresponding calls into the external cryptographic primitive library report
success (status 1) or failure (status 0); the spec treats these collaborators
as fallible, so their status is an input of the model. -/
structure prim_env where
  fips : Bool
  new_ok : Bool := true
  init_ok : Bool := true
  update_ok : Bool := true
  final_ok : Bool := true
  copy_ok : Bool := true
  reset_ok : Bool := true
deriving DecidableEq, Repr

/-! ### Model of the external generic (EVP) digest-handle API -/

inductive evp_md where
  | md5
  | sha1
  | sha224
  | sha256
  | sha384
  | sha512
deriving DecidableEq, Repr

/-- Modelled from the spec: an opaque digest handle of the external library.
It records which digest identifier it was initialized with and the bytes fed
so far; finalization computes the corresponding digest of those bytes. -/
structure EVP_MD_CTX_t where
  md : Option evp_md := none
  data : Bytes := []
deriving DecidableEq, Repr

def evpDigestOf : evp_md → Bytes → Bytes
  | .md5 => md5Bytes
  | .sha1 => sha1Bytes
  | .sha224 => sha224Bytes
  | .sha256 => sha256Bytes
  | .sha384 => sha384Bytes
  | .sha512 => sha512Bytes

/-- Modelled from the spec: `EVP_DigestInit_ex`; initializing a null handle
fails with status 0, otherwise the handle is (re)initialized for `m`. -/
def EVP_DigestInit_ex (env : prim_env) (ctx : Option EVP_MD_CTX_t) (m : evp_md) :
    Option EVP_MD_CTX_t × Nat :=
  match ctx with
  | none => (none, 0)
  | some _ => (some { md := some m, data := [] }, if env.init_ok then 1 else 0)

/-- Modelled from the spec: `EVP_DigestUpdate` appends to the handle's data. -/
def EVP_DigestUpdate (env : prim_env) (ctx : Option EVP_MD_CTX_t) (data : Bytes) :
    Option EVP_MD_CTX_t × Nat :=
  match ctx with
  | none => (none, 0)
  | some c => (some { c with data := c.data ++ data }, if env.update_ok then 1 else 0)

/-- Modelled from the spec: `EVP_DigestFinal_ex` emits the digest of the
accumulated bytes; a null or uninitialized handle fails with status 0. -/
def EVP_DigestFinal_ex (env : prim_env) (ctx : Option EVP_MD_CTX_t) : Bytes × Nat :=
  match ctx with
  | none => ([], 0)
  | some c =>
    match c.md with
    | none => ([], 0)
    | some m => (evpDigestOf m c.data, if env.final_ok then 1 else 0)

/-- Modelled from the spec: `EVP_MD_CTX_copy_ex` duplicates handle state into
an existing destination handle; a null handle on either side fails. -/
def EVP_MD_CTX_copy_ex (env : prim_env) (dstC srcC : Option EVP_MD_CTX_t) :
    Option EVP_MD_CTX_t × Nat :=
  match dstC, srcC with
  | some _, some c => (some c, if env.copy_ok then 1 else 0)
  | _, _ => (dstC, 0)

/-- Modelled from the spec: `S2N_EVP_MD_CTX_NEW` acquires a fresh handle, or
null on allocation failure. -/
def S2N_EVP_MD_CTX_NEW (env : prim_env) : Option EVP_MD_CTX_t :=
  if env.new_ok then some {} else none

/-- Modelled from the spec: `S2N_EVP_MD_CTX_RESET` wipes a handle in place
(reusing the same handle); resetting a null handle is a successful no-op. -/
def S2N_EVP_MD_CTX_RESET (env : prim_env) (ctx : Option EVP_MD_CTX_t) :
    Option EVP_MD_CTX_t × Nat :=
  match ctx with
  | none => (none, 1)
  | some _ => (some {}, if env.reset_ok then 1 else 0)

/-- Modelled from the spec: `S2N_EVP_MD_CTX_FREE` destroys a handle; it has an
idempotent per-handle null check, so freeing a null handle is safe. -/
def S2N_EVP_MD_CTX_FREE (_ctx : Option EVP_MD_CTX_t) : Option EVP_MD_CTX_t := none

/-- Modelled from the spec: the per-state evp digest record of the hash state;
`md5_allowed_for_fips` is the explicit certified-mode MD5 override flag. -/
structure s2n_evp_digest where
  ctx : Option EVP_MD_CTX_t := none
  md5_allowed_for_fips : Bool := false
deriving DecidableEq, Repr

/-- Modelled from the spec: `s2n_digest_allow_md5_for_fips` sets the per-state
override flag. -/
def s2n_digest_allow_md5_for_fips (d : s2n_evp_digest) : s2n_evp_digest :=
  { d with md5_allowed_for_fips := true }

/-- Modelled from the spec: `s2n_digest_is_md5_allowed_for_fips` reads the
per-state override flag. -/
def s2n_digest_is_md5_allowed_for_fips (d : s2n_evp_digest) : Bool :=
  d.md5_allowed_for_fips

/-! ### Model of the external low-level (embedded-context) primitive API

Each embedded `*_CTX` is modelled by the byte sequence fed so far;
`*_Init` clears it, `*_Update` appends, `*_Final` computes the digest. -/

def MD5_Init (env : prim_env) : Bytes × Nat := ([], if env.init_ok then 1 else 0)

def SHA1_Init (env : prim_env) : Bytes × Nat := ([], if env.init_ok then 1 else 0)

def SHA224_Init (env : prim_env) : Bytes × Nat := ([], if env.init_ok then 1 else 0)

def SHA256_Init (env : prim_env) : Bytes × Nat := ([], if env.init_ok then 1 else 0)

def SHA384_Init (env : prim_env) : Bytes × Nat := ([], if env.init_ok then 1 else 0)

def SHA512_Init (env : prim_env) : Bytes × Nat := ([], if env.init_ok then 1 else 0)

def ctxUpdate (env : prim_env) (ctx data : Bytes) : Bytes × Nat :=
  (ctx ++ data, if env.update_ok then 1 else 0)

def MD5_Update (env : prim_env) (ctx data : Bytes) : Bytes × Nat := ctxUpdate env ctx data

def SHA1_Update (env : prim_env) (ctx data : Bytes) : Bytes × Nat := ctxUpdate env ctx data

def SHA224_Update (env : prim_env) (ctx data : Bytes) : Bytes × Nat := ctxUpdate env ctx data

def SHA256_Update (env : prim_env) (ctx data : Bytes) : Bytes × Nat := ctxUpdate env ctx data

def SHA384_Update (env : prim_env) (ctx data : Bytes) : Bytes × Nat := ctxUpdate env ctx data

def SHA512_Update (env : prim_env) (ctx data : Bytes) : Bytes × Nat := ctxUpdate env ctx data

def MD5_Final (env : prim_env) (ctx : Bytes) : Bytes × Nat :=
  (md5Bytes ctx, if env.final_ok then 1 else 0)

def SHA1_Final (env : prim_env) (ctx : Bytes) : Bytes × Nat :=
  (sha1Bytes ctx, if env.final_ok then 1 else 0)

def SHA224_Final (env : prim_env) (ctx : Bytes) : Bytes × Nat :=
  (sha224Bytes ctx, if env.final_ok then 1 else 0)

def SHA256_Final (env : prim_env) (ctx : Bytes) : Bytes × Nat :=
  (sha256Bytes ctx, if env.final_ok then 1 else 0)

def SHA384_Final (env : prim_env) (ctx : Bytes) : Bytes × Nat :=
  (sha384Bytes ctx, if env.final_ok then 1 else 0)

def SHA512_Final (env : prim_env) (ctx : Bytes) : Bytes × Nat :=
  (sha512Bytes ctx, if env.final_ok then 1 else 0)

/-! ### The hash state -/

/-- The composite member of the low-level digest union
(`state->digest.low_level.md5_sha1`). -/
structure md5_sha1_ctx where
  sha1 : Bytes := []
  md5 : Bytes := []
deriving DecidableEq, Repr

/-- The low-level member of the digest union.  The C union overlays these
contexts; since only the member selected by the current algorithm is ever
read, the product model is observationally faithful. -/
structure low_level_ctxs where
  md5 : Bytes := []
  sha1 : Bytes := []
  sha224 : Bytes := []
  sha256 : Bytes := []
  sha384 : Bytes := []
  sha512 : Bytes := []
  md5_sha1 : md5_sha1_ctx := {}
deriving DecidableEq, Repr

/-- The two backend descriptors (`s2n_low_level_hash` / `s2n_evp_hash`); a
state's `hash_impl` reference is modelled by this tag. -/
inductive hash_impl_kind where
  | low_level
  | evp
deriving DecidableEq, Repr

/-- `struct s2n_hash_state` (fields per the spec's data model: algorithm tag,
backend reference, the digest-context union and the override flag, which
lives on the evp digest record). -/
structure s2n_hash_state where
  alg : Nat := 0
  hash_impl : hash_impl_kind := .low_level
  low_level : low_level_ctxs := {}
  evp : s2n_evp_digest := {}
  evp_md5_secondary : s2n_evp_digest := {}
deriving DecidableEq, Repr

instance {ε α : Type} [DecidableEq ε] [DecidableEq α] : DecidableEq (Except ε α) := fun x y =>
  match x, y with
  | .ok a, .ok b =>
    if h : a = b then .isTrue (by rw [h]) else .isFalse (by simp [h])
  | .error a, .error b =>
    if h : a = b then .isTrue (by rw [h]) else .isFalse (by simp [h])
  | .ok _, .error _ => .isFalse (by simp)
  | .error _, .ok _ => .isFalse (by simp)

/-- A C-style result: the (possibly partially mutated) state plus the int
return, where `.ok ()` is the 0 return and `.error e` models `S2N_ERROR(e)`
returning -1 with errno `e`. -/
abbrev CRes := s2n_hash_state × Except s2n_error Unit

/-- Result of a digest call: the state plus either the bytes written to the
caller's output buffer or the error. -/
abbrev DRes := s2n_hash_state × Except s2n_error Bytes

end S2nHash

namespace S2nHash

/-! ### Algorithm registry and availability policy (`s2n_hash.c` lines 24–64) -/

/-- `s2n_hash_digest_size`: the fixed size table; `S2N_ERROR` on a tag outside
the enumerated set (tags: 0 None, 1 MD5, 2 SHA1, 3 SHA224, 4 SHA256,
5 SHA384, 6 SHA512, 7 MD5_SHA1). -/
def s2n_hash_digest_size (alg : Nat) : Except s2n_error Nat :=
  match alg with
  | 0 => .ok 0
  | 1 => .ok MD5_DIGEST_LENGTH
  | 2 => .ok SHA_DIGEST_LENGTH
  | 3 => .ok SHA224_DIGEST_LENGTH
  | 4 => .ok SHA256_DIGEST_LENGTH
  | 5 => .ok SHA384_DIGEST_LENGTH
  | 6 => .ok SHA512_DIGEST_LENGTH
  | 7 => .ok (MD5_DIGEST_LENGTH + SHA_DIGEST_LENGTH)
  | _ => .error .HASH_INVALID_ALGORITHM

/-- `s2n_hash_is_available`: 1 for always-available algorithms, `!fips` for
MD5 and MD5_SHA1, `S2N_ERROR(HASH_INVALID_ALGORITHM)` on an unknown tag. -/
def s2n_hash_is_available (fips : Bool) (alg : Nat) : Except s2n_error Bool :=
  match alg with
  | 1 => .ok (!fips)
  | 7 => .ok (!fips)
  | 0 | 2 | 3 | 4 | 5 | 6 => .ok true
  | _ => .error .HASH_INVALID_ALGORITHM

/-- In C, `s2n_hash_is_available` returns the int -1 after `S2N_ERROR`; its
caller `s2n_hash_init` uses that return directly as a truth value, so an
error return is truthy there. -/
def cTruthy : Except s2n_error Bool → Bool
  | .error _ => true
  | .ok b => b

/-! ### Low-level backend (`s2n_hash.c` lines 66–221) -/

def s2n_low_level_hash_new (state : s2n_hash_state) : CRes :=
  (state, .ok ())

def s2n_low_level_hash_init (env : prim_env) (state : s2n_hash_state) (alg : Nat) : CRes :=
  let step : Option (s2n_hash_state × Nat) :=
    match alg with
    | 0 => some (state, 1)
    | 1 => let p := MD5_Init env; some ({ state with low_level.md5 := p.1 }, p.2)
    | 2 => let p := SHA1_Init env; some ({ state with low_level.sha1 := p.1 }, p.2)
    | 3 => let p := SHA224_Init env; some ({ state with low_level.sha224 := p.1 }, p.2)
    | 4 => let p := SHA256_Init env; some ({ state with low_level.sha256 := p.1 }, p.2)
    | 5 => let p := SHA384_Init env; some ({ state with low_level.sha384 := p.1 }, p.2)
    | 6 => let p := SHA512_Init env; some ({ state with low_level.sha512 := p.1 }, p.2)
    | 7 =>
      let p1 := SHA1_Init env
      let p2 := MD5_Init env
      some ({ state with low_level.md5_sha1 := { sha1 := p1.1, md5 := p2.1 } }, p1.2 &&& p2.2)
    | _ => none
  match step with
  | none => (state, .error .HASH_INVALID_ALGORITHM)
  | some (st, r) =>
    if r = 0 then (st, .error .HASH_INIT_FAILED)
    else ({ st with alg := alg }, .ok ())

def s2n_low_level_hash_update (env : prim_env) (state : s2n_hash_state) (data : Bytes) : CRes :=
  let step : Option (s2n_hash_state × Nat) :=
    match state.alg with
    | 0 => some (state, 1)
    | 1 =>
      let p := MD5_Update env state.low_level.md5 data
      some ({ state with low_level.md5 := p.1 }, p.2)
    | 2 =>
      let p := SHA1_Update env state.low_level.sha1 data
      some ({ state with low_level.sha1 := p.1 }, p.2)
    | 3 =>
      let p := SHA224_Update env state.low_level.sha224 data
      some ({ state with low_level.sha224 := p.1 }, p.2)
    | 4 =>
      let p := SHA256_Update env state.low_level.sha256 data
      some ({ state with low_level.sha256 := p.1 }, p.2)
    | 5 =>
      let p := SHA384_Update env state.low_level.sha384 data
      some ({ state with low_level.sha384 := p.1 }, p.2)
    | 6 =>
      let p := SHA512_Update env state.low_level.sha512 data
      some ({ state with low_level.sha512 := p.1 }, p.2)
    | 7 =>
      let p1 := SHA1_Update env state.low_level.md5_sha1.sha1 data
      let p2 := MD5_Update env state.low_level.md5_sha1.md5 data
      some ({ state with low_level.md5_sha1 := { sha1 := p1.1, md5 := p2.1 } }, p1.2 &&& p2.2)
    | _ => none
  match step with
  | none => (state, .error .HASH_INVALID_ALGORITHM)
  | some (st, r) =>
    if r = 0 then (st, .error .HASH_UPDATE_FAILED) else (st, .ok ())

/-- Low-level digest.  Note the source performs `eq_check(size, …)` in every
case except `S2N_HASH_NONE`, where no size validation happens.  For the
composite case the source writes the SHA1 finalization at byte offset
`MD5_DIGEST_LENGTH` and the MD5 finalization at offset 0; the returned byte
list is the final contents of the caller's buffer. -/
def s2n_low_level_hash_digest (env : prim_env) (state : s2n_hash_state) (size : Nat) : DRes :=
  match state.alg with
  | 0 => (state, .ok [])
  | 1 =>
    if size ≠ MD5_DIGEST_LENGTH then (state, .error .SAFETY)
    else
      let p := MD5_Final env state.low_level.md5
      if p.2 = 0 then (state, .error .HASH_DIGEST_FAILED) else (state, .ok p.1)
  | 2 =>
    if size ≠ SHA_DIGEST_LENGTH then (state, .error .SAFETY)
    else
      let p := SHA1_Final env state.low_level.sha1
      if p.2 = 0 then (state, .error .HASH_DIGEST_FAILED) else (state, .ok p.1)
  | 3 =>
    if size ≠ SHA224_DIGEST_LENGTH then (state, .error .SAFETY)
    else
      let p := SHA224_Final env state.low_level.sha224
      if p.2 = 0 then (state, .error .HASH_DIGEST_FAILED) else (state, .ok p.1)
  | 4 =>
    if size ≠ SHA256_DIGEST_LENGTH then (state, .error .SAFETY)
    else
      let p := SHA256_Final env state.low_level.sha256
      if p.2 = 0 then (state, .error .HASH_DIGEST_FAILED) else (state, .ok p.1)
  | 5 =>
    if size ≠ SHA384_DIGEST_LENGTH then (state, .error .SAFETY)
    else
      let p := SHA384_Final env state.low_level.sha384
      if p.2 = 0 then (state, .error .HASH_DIGEST_FAILED) else (state, .ok p.1)
  | 6 =>
    if size ≠ SHA512_DIGEST_LENGTH then (state, .error .SAFETY)
    else
      let p := SHA512_Final env state.low_level.sha512
      if p.2 = 0 then (state, .error .HASH_DIGEST_FAILED) else (state, .ok p.1)
  | 7 =>
    if size ≠ MD5_DIGEST_LENGTH + SHA_DIGEST_LENGTH then (state, .error .SAFETY)
    else
      let p1 := SHA1_Final env state.low_level.md5_sha1.sha1
      let p2 := MD5_Final env state.low_level.md5_sha1.md5
      if p1.2 &&& p2.2 = 0 then (state, .error .HASH_DIGEST_FAILED)
      else (state, .ok (p2.1 ++ p1.1))
  | _ => (state, .error .HASH_INVALID_ALGORITHM)

/-- Low-level copy is `memcpy` of the whole `s2n_hash_state` struct: the
destination becomes an exact copy of the source (algorithm tag, backend
reference and all contexts included). -/
def s2n_low_level_hash_copy (_dst src : s2n_hash_state) : CRes :=
  (src, .ok ())

def s2n_low_level_hash_reset (env : prim_env) (state : s2n_hash_state) : CRes :=
  s2n_low_level_hash_init env state state.alg

def s2n_low_level_hash_free (state : s2n_hash_state) : CRes :=
  (state, .ok ())

end S2nHash

namespace S2nHash

/-! ### Generic (EVP) backend and public dispatcher (`s2n_hash.c` lines 223–546) -/

def s2n_evp_hash_new (env : prim_env) (state : s2n_hash_state) : CRes :=
  let c1 := S2N_EVP_MD_CTX_NEW env
  let st1 := { state with evp.ctx := c1 }
  if c1.isNone then (st1, .error .NULL_ERR)
  else
    let c2 := S2N_EVP_MD_CTX_NEW env
    let st2 := { st1 with evp_md5_secondary.ctx := c2 }
    if c2.isNone then (st2, .error .NULL_ERR)
    else (st2, .ok ())

def s2n_evp_hash_allow_md5_for_fips (state : s2n_hash_state) : CRes :=
  ({ state with evp := s2n_digest_allow_md5_for_fips state.evp }, .ok ())

/-- `s2n_hash_set_impl`: re-resolve the backend from the *current*
certified-mode flag. -/
def s2n_hash_set_impl (env : prim_env) (state : s2n_hash_state) : s2n_hash_state :=
  { state with hash_impl := if env.fips then .evp else .low_level }

/-- Public `s2n_hash_allow_md5_for_fips`: re-resolves the backend, then
`notnull_check(state->hash_impl->allow_md5_for_fips)` — which fails for the
low-level backend, whose descriptor stores a NULL pointer there. -/
def s2n_hash_allow_md5_for_fips (env : prim_env) (state : s2n_hash_state) : CRes :=
  let st := s2n_hash_set_impl env state
  match st.hash_impl with
  | .low_level => (st, .error .NULL_ERR)
  | .evp => s2n_evp_hash_allow_md5_for_fips st

def s2n_evp_hash_init (env : prim_env) (state : s2n_hash_state) (alg : Nat) : CRes :=
  let step : Option (s2n_hash_state × Nat) :=
    match alg with
    | 0 => some (state, 1)
    | 1 =>
      let p := EVP_DigestInit_ex env state.evp.ctx .md5
      some ({ state with evp.ctx := p.1 }, p.2)
    | 2 =>
      let p := EVP_DigestInit_ex env state.evp.ctx .sha1
      some ({ state with evp.ctx := p.1 }, p.2)
    | 3 =>
      let p := EVP_DigestInit_ex env state.evp.ctx .sha224
      some ({ state with evp.ctx := p.1 }, p.2)
    | 4 =>
      let p := EVP_DigestInit_ex env state.evp.ctx .sha256
      some ({ state with evp.ctx := p.1 }, p.2)
    | 5 =>
      let p := EVP_DigestInit_ex env state.evp.ctx .sha384
      some ({ state with evp.ctx := p.1 }, p.2)
    | 6 =>
      let p := EVP_DigestInit_ex env state.evp.ctx .sha512
      some ({ state with evp.ctx := p.1 }, p.2)
    | 7 =>
      let p1 := EVP_DigestInit_ex env state.evp.ctx .sha1
      let p2 := EVP_DigestInit_ex env state.evp_md5_secondary.ctx .md5
      some ({ state with evp.ctx := p1.1, evp_md5_secondary.ctx := p2.1 }, p1.2 &&& p2.2)
    | _ => none
  match step with
  | none => (state, .error .HASH_INVALID_ALGORITHM)
  | some (st, r) =>
    if r = 0 then (st, .error .HASH_INIT_FAILED)
    else ({ st with alg := alg }, .ok ())

def s2n_evp_hash_update (env : prim_env) (state : s2n_hash_state) (data : Bytes) : CRes :=
  let step : Option (s2n_hash_state × Nat) :=
    match state.alg with
    | 0 => some (state, 1)
    | 1 | 2 | 3 | 4 | 5 | 6 =>
      let p := EVP_DigestUpdate env state.evp.ctx data
      some ({ state with evp.ctx := p.1 }, p.2)
    | 7 =>
      let p1 := EVP_DigestUpdate env state.evp.ctx data
      let p2 := EVP_DigestUpdate env state.evp_md5_secondary.ctx data
      some ({ state with evp.ctx := p1.1, evp_md5_secondary.ctx := p2.1 }, p1.2 &&& p2.2)
    | _ => none
  match step with
  | none => (state, .error .HASH_INVALID_ALGORITHM)
  | some (st, r) =>
    if r = 0 then (st, .error .HASH_UPDATE_FAILED) else (st, .ok ())

/-- EVP digest.  The source validates, before the switch and for every
algorithm, that the caller size equals `s2n_hash_digest_size(state->alg)`
(`GUARD` + `eq_check`).  For the composite case the primary (SHA1) handle is
finalized at byte offset `MD5_DIGEST_LENGTH` and the secondary (MD5) handle
at offset 0. -/
def s2n_evp_hash_digest (env : prim_env) (state : s2n_hash_state) (size : Nat) : DRes :=
  match s2n_hash_digest_size state.alg with
  | .error e => (state, .error e)
  | .ok expected =>
    if size ≠ expected then (state, .error .SAFETY)
    else
      match state.alg with
      | 0 => (state, .ok [])
      | 1 | 2 | 3 | 4 | 5 | 6 =>
        let p := EVP_DigestFinal_ex env state.evp.ctx
        if p.2 = 0 then (state, .error .HASH_DIGEST_FAILED) else (state, .ok p.1)
      | 7 =>
        let p1 := EVP_DigestFinal_ex env state.evp.ctx
        let p2 := EVP_DigestFinal_ex env state.evp_md5_secondary.ctx
        if p1.2 &&& p2.2 = 0 then (state, .error .HASH_DIGEST_FAILED)
        else (state, .ok (p2.1 ++ p1.1))
      | _ => (state, .error .HASH_INVALID_ALGORITHM)

/-- EVP copy.  In the source the `S2N_HASH_MD5` case falls through (no
`break`) into the plain primary-handle copy shared with the SHA cases; the
override flag is re-applied to the destination via the *public*
`s2n_hash_allow_md5_for_fips` only in the MD5 and MD5_SHA1 cases, and only
when set on the source.  The backend reference and algorithm tag are
propagated after the success check. -/
def s2n_evp_hash_copy (env : prim_env) (dst src : s2n_hash_state) : CRes :=
  let finish (d : s2n_hash_state) (r : Nat) : CRes :=
    if r = 0 then (d, .error .HASH_COPY_FAILED)
    else ({ d with hash_impl := src.hash_impl, alg := src.alg }, .ok ())
  match src.alg with
  | 0 => finish dst 1
  | 1 =>
    let g : CRes :=
      if s2n_digest_is_md5_allowed_for_fips src.evp
      then s2n_hash_allow_md5_for_fips env dst
      else (dst, .ok ())
    match g.2 with
    | .error _ => g
    | .ok _ =>
      let p := EVP_MD_CTX_copy_ex env g.1.evp.ctx src.evp.ctx
      finish { g.1 with evp.ctx := p.1 } p.2
  | 2 | 3 | 4 | 5 | 6 =>
    let p := EVP_MD_CTX_copy_ex env dst.evp.ctx src.evp.ctx
    finish { dst with evp.ctx := p.1 } p.2
  | 7 =>
    let g : CRes :=
      if s2n_digest_is_md5_allowed_for_fips src.evp
      then s2n_hash_allow_md5_for_fips env dst
      else (dst, .ok ())
    match g.2 with
    | .error _ => g
    | .ok _ =>
      let p1 := EVP_MD_CTX_copy_ex env g.1.evp.ctx src.evp.ctx
      let p2 := EVP_MD_CTX_copy_ex env g.1.evp_md5_secondary.ctx src.evp_md5_secondary.ctx
      finish { g.1 with evp.ctx := p1.1, evp_md5_secondary.ctx := p2.1 } (p1.2 &&& p2.2)
  | _ => (dst, .error .HASH_INVALID_ALGORITHM)

def s2n_evp_hash_reset (env : prim_env) (state : s2n_hash_state) : CRes :=
  let reset_md5_for_fips :=
    state.alg == S2N_HASH_MD5 && s2n_digest_is_md5_allowed_for_fips state.evp
  let p1 := S2N_EVP_MD_CTX_RESET env state.evp.ctx
  let st1 := { state with evp.ctx := p1.1 }
  let step : s2n_hash_state × Nat :=
    if st1.alg == S2N_HASH_MD5_SHA1 then
      let p2 := S2N_EVP_MD_CTX_RESET env st1.evp_md5_secondary.ctx
      ({ st1 with evp_md5_secondary.ctx := p2.1 }, p1.2 &&& p2.2)
    else (st1, p1.2)
  if step.2 = 0 then (step.1, .error .HASH_WIPE_FAILED)
  else
    let g : CRes :=
      if reset_md5_for_fips then s2n_hash_allow_md5_for_fips env step.1
      else (step.1, .ok ())
    match g.2 with
    | .error _ => g
    | .ok _ => s2n_evp_hash_init env g.1 g.1.alg

def s2n_evp_hash_free (state : s2n_hash_state) : CRes :=
  ({ state with evp.ctx := S2N_EVP_MD_CTX_FREE state.evp.ctx,
                evp_md5_secondary.ctx := S2N_EVP_MD_CTX_FREE state.evp_md5_secondary.ctx },
   .ok ())

/-! ### Public dispatcher -/

/-- Public `s2n_hash_new`: re-resolves the backend, then delegates to the
backend's `new`. -/
def s2n_hash_new (env : prim_env) (state : s2n_hash_state) : CRes :=
  let st := s2n_hash_set_impl env state
  match st.hash_impl with
  | .low_level => s2n_low_level_hash_new st
  | .evp => s2n_evp_hash_new env st

/-- Public `s2n_hash_init`: re-resolves the backend; proceeds to the backend
`init` when `s2n_hash_is_available(alg)` is truthy in C (note: its -1 error
return for an unknown tag is truthy) or when the algorithm is MD5 and the
per-state override is set; otherwise `S2N_ERROR(HASH_INVALID_ALGORITHM)`. -/
def s2n_hash_init (env : prim_env) (state : s2n_hash_state) (alg : Nat) : CRes :=
  let st := s2n_hash_set_impl env state
  if cTruthy (s2n_hash_is_available env.fips alg) ||
     (alg == S2N_HASH_MD5 && s2n_digest_is_md5_allowed_for_fips st.evp) then
    match st.hash_impl with
    | .low_level => s2n_low_level_hash_init env st alg
    | .evp => s2n_evp_hash_init env st alg
  else (st, .error .HASH_INVALID_ALGORITHM)

/-- Public `s2n_hash_update`: dispatches on the backend reference already
stored on the state (no re-resolution in the source). -/
def s2n_hash_update (env : prim_env) (state : s2n_hash_state) (data : Bytes) : CRes :=
  match state.hash_impl with
  | .low_level => s2n_low_level_hash_update env state data
  | .evp => s2n_evp_hash_update env state data

/-- Public `s2n_hash_digest`: dispatches on the stored backend reference. -/
def s2n_hash_digest (env : prim_env) (state : s2n_hash_state) (size : Nat) : DRes :=
  match state.hash_impl with
  | .low_level => s2n_low_level_hash_digest env state size
  | .evp => s2n_evp_hash_digest env state size

/-- Public `s2n_hash_copy`: dispatches on the backend reference stored on the
*source* state. -/
def s2n_hash_copy (env : prim_env) (dst src : s2n_hash_state) : CRes :=
  match src.hash_impl with
  | .low_level => s2n_low_level_hash_copy dst src
  | .evp => s2n_evp_hash_copy env dst src

/-- Public `s2n_hash_reset`: re-resolves the backend, then delegates. -/
def s2n_hash_reset (env : prim_env) (state : s2n_hash_state) : CRes :=
  let st := s2n_hash_set_impl env state
  match st.hash_impl with
  | .low_level => s2n_low_level_hash_reset env st
  | .evp => s2n_evp_hash_reset env st

/-- Public `s2n_hash_free`: re-resolves the backend, then delegates. -/
def s2n_hash_free (env : prim_env) (state : s2n_hash_state) : CRes :=
  let st := s2n_hash_set_impl env state
  match st.hash_impl with
  | .low_level => s2n_low_level_hash_free st
  | .evp => s2n_evp_hash_free st

/-! ### Scenario helpers -/

/-- An environment where every external primitive call succeeds. -/
def nominalEnv (b : Bool) : prim_env := { fips := b }

/-- A zero-initialized hash state (as handed to `s2n_hash_new`). -/
def mkState : s2n_hash_state := {}

/-- The digest size of a valid algorithm tag, as a total function. -/
def digestSizeD (alg : Nat) : Nat := (s2n_hash_digest_size alg).toOption.getD 0

/-- Apply a sequence of public update calls, keeping the state. -/
def applyUpdates (env : prim_env) (st : s2n_hash_state) (msgs : List Bytes) : s2n_hash_state :=
  msgs.foldl (fun s m => (s2n_hash_update env s m).1) st

end S2nHash

set_option maxRecDepth 100000

namespace S2nHash

/-! ### Shared structural lemmas -/

theorem s2n_hash_update_preserves_alg_impl (env : prim_env) (st : s2n_hash_state) (m : Bytes) :
    (s2n_hash_update env st m).1.alg = st.alg ∧
    (s2n_hash_update env st m).1.hash_impl = st.hash_impl := by
  rcases himpl : st.hash_impl with _ | _ <;>
    rcases halg : st.alg with _ | _ | _ | _ | _ | _ | _ | _ | k <;>
      simp [s2n_hash_update, s2n_low_level_hash_update, s2n_evp_hash_update, himpl, halg] <;>
        split <;> simp_all

theorem applyUpdates_preserves_alg_impl (env : prim_env) (msgs : List Bytes) :
    ∀ st : s2n_hash_state,
      (applyUpdates env st msgs).alg = st.alg ∧
      (applyUpdates env st msgs).hash_impl = st.hash_impl := by
  induction msgs with
  | nil => intro st; exact ⟨rfl, rfl⟩
  | cons m ms ih =>
    intro st
    have h1 := s2n_hash_update_preserves_alg_impl env st m
    have h2 := ih (s2n_hash_update env st m).1
    exact ⟨h2.1.trans h1.1, h2.2.trans h1.2⟩

/-! ### Claim theorems -/

/-- Claim C5: `s2n_hash_digest_size` returns exactly 0 for None, 16 for MD5,
20 for SHA1, 28 for SHA224, 32 for SHA256, 48 for SHA384, 64 for SHA512 and
36 for CompositeMD5SHA1 (a pure function, so no side effects on success),
and fails with `HASH_INVALID_ALGORITHM` for every tag outside the enumerated
set (tags `≥ 8` in the `Nat` model of the C enum). -/
theorem claim_C5_digest_size_table (alg : Nat) :
    s2n_hash_digest_size 0 = .ok 0 ∧
    s2n_hash_digest_size 1 = .ok 16 ∧
    s2n_hash_digest_size 2 = .ok 20 ∧
    s2n_hash_digest_size 3 = .ok 28 ∧
    s2n_hash_digest_size 4 = .ok 32 ∧
    s2n_hash_digest_size 5 = .ok 48 ∧
    s2n_hash_digest_size 6 = .ok 64 ∧
    s2n_hash_digest_size 7 = .ok 36 ∧
    (8 ≤ alg → s2n_hash_digest_size alg = .error .HASH_INVALID_ALGORITHM) := by
  refine ⟨rfl, rfl, rfl, rfl, rfl, rfl, rfl, rfl, fun h => ?_⟩
  obtain ⟨k, hk⟩ := Nat.le.dest h
  rw [Nat.add_comm] at hk
  subst hk
  rfl

/-- Witness for C5 at the concrete out-of-range tag 11. -/
theorem claim_C5_witness :
    s2n_hash_digest_size 11 = .error .HASH_INVALID_ALGORITHM :=
  (claim_C5_digest_size_table 11).2.2.2.2.2.2.2.2 (by decide)

/-- Claim C6: `s2n_hash_is_available` returns false for MD5 (tag 1) and
CompositeMD5SHA1 (tag 7) exactly when certified-mode is active (`.ok (!fips)`),
returns true for every other enumerated algorithm (None and the SHA family)
regardless of mode, and fails with `HASH_INVALID_ALGORITHM` on a tag outside
the enumerated set instead of returning false. -/
theorem claim_C6_availability (fips : Bool) (alg : Nat) :
    s2n_hash_is_available fips 1 = .ok (!fips) ∧
    s2n_hash_is_available fips 7 = .ok (!fips) ∧
    (alg = 0 ∨ alg = 2 ∨ alg = 3 ∨ alg = 4 ∨ alg = 5 ∨ alg = 6 →
      s2n_hash_is_available fips alg = .ok true) ∧
    (8 ≤ alg → s2n_hash_is_available fips alg = .error .HASH_INVALID_ALGORITHM) := by
  refine ⟨rfl, rfl, fun h => ?_, fun h => ?_⟩
  · rcases h with rfl | rfl | rfl | rfl | rfl | rfl <;> rfl
  · obtain ⟨k, hk⟩ := Nat.le.dest h
    rw [Nat.add_comm] at hk
    subst hk
    rfl

/-- Witness for C6: SHA224 is available under certified mode; tag 9 is
invalid rather than unavailable. -/
theorem claim_C6_witness :
    s2n_hash_is_available true 3 = .ok true ∧
    s2n_hash_is_available false 9 = .error .HASH_INVALID_ALGORITHM :=
  ⟨(claim_C6_availability true 3).2.2.1 (Or.inr (Or.inr (Or.inl rfl))),
   (claim_C6_availability false 9).2.2.2 (by decide)⟩

/-- Claim C9: generic-backend release succeeds on every state (including
partially acquired states, where one or both handle fields are already
null), leaves both handle fields null, and is idempotent: releasing a
released state succeeds and changes nothing. -/
theorem claim_C9_release_idempotent (st : s2n_hash_state) :
    (s2n_evp_hash_free st).2 = .ok () ∧
    (s2n_evp_hash_free st).1.evp.ctx = none ∧
    (s2n_evp_hash_free st).1.evp_md5_secondary.ctx = none ∧
    s2n_evp_hash_free (s2n_evp_hash_free st).1 = s2n_evp_hash_free st := by
  simp [s2n_evp_hash_free, S2N_EVP_MD_CTX_FREE]

/-- Claim C10: in both backends, a failed `init` (underlying primitive
failure, reported as `HASH_INIT_FAILED`, or an out-of-range tag, reported as
`HASH_INVALID_ALGORITHM`) leaves the state's stored algorithm tag unchanged:
`state->alg = alg` executes only after the success check. -/
theorem claim_C10_failed_init_preserves_alg (env : prim_env) (st : s2n_hash_state)
    (alg : Nat) (e e2 : s2n_error) :
    ((s2n_low_level_hash_init env st alg).2 = .error e →
      (s2n_low_level_hash_init env st alg).1.alg = st.alg) ∧
    ((s2n_evp_hash_init env st alg).2 = .error e2 →
      (s2n_evp_hash_init env st alg).1.alg = st.alg) := by
  constructor <;> intro h <;>
    rcases halg : alg with _ | _ | _ | _ | _ | _ | _ | _ | k <;>
      rcases hc : st.evp.ctx with _ | c <;>
        rcases hc2 : st.evp_md5_secondary.ctx with _ | c2 <;>
          by_cases hi : env.init_ok <;>
            simp_all [s2n_low_level_hash_init, s2n_evp_hash_init, MD5_Init, SHA1_Init,
              SHA224_Init, SHA256_Init, SHA384_Init, SHA512_Init, EVP_DigestInit_ex]

/-- Witness for C10: a failing underlying init (status 0) on a state holding
SHA256 leaves the tag at SHA256 in both backends. -/
theorem claim_C10_witness :
    (s2n_low_level_hash_init { fips := false, init_ok := false }
        ({ alg := 4 } : s2n_hash_state) 2).2 = .error .HASH_INIT_FAILED ∧
    (s2n_low_level_hash_init { fips := false, init_ok := false }
        ({ alg := 4 } : s2n_hash_state) 2).1.alg = 4 ∧
    (s2n_evp_hash_init { fips := true, init_ok := false }
        ({ alg := 4, evp := { ctx := some {} } } : s2n_hash_state) 2).2
      = .error .HASH_INIT_FAILED ∧
    (s2n_evp_hash_init { fips := true, init_ok := false }
        ({ alg := 4, evp := { ctx := some {} } } : s2n_hash_state) 2).1.alg = 4 := by
  refine ⟨by decide, ?_, by decide, ?_⟩
  · exact (claim_C10_failed_init_preserves_alg { fips := false, init_ok := false }
      ({ alg := 4 } : s2n_hash_state) 2 .HASH_INIT_FAILED .HASH_INIT_FAILED).1 (by decide)
  · exact (claim_C10_failed_init_preserves_alg { fips := true, init_ok := false }
      ({ alg := 4, evp := { ctx := some {} } } : s2n_hash_state) 2
      .HASH_INIT_FAILED .HASH_INIT_FAILED).2 (by decide)

end S2nHash

namespace S2nHash

/-! ### Digest length lemmas -/

theorem length_natToLE (n k : Nat) : (natToLE n k).length = k := by simp [natToLE]

theorem length_natToBE (n k : Nat) : (natToBE n k).length = k := by simp [natToBE]

theorem length_md5Bytes (msg : Bytes) : (md5Bytes msg).length = 16 := by
  simp [md5Bytes, length_natToLE]

theorem length_sha1Bytes (msg : Bytes) : (sha1Bytes msg).length = 20 := by
  simp [sha1Bytes, length_natToBE]

theorem length_foldl_sha256Round (w st : List Nat) :
    ((List.range 64).foldl (sha256Round w) st).length = 8 := by
  rw [show (64 : Nat) = 63 + 1 from rfl, List.range_succ, List.foldl_append]
  rfl

theorem length_sha256BlockGo (st : List Nat) (blk : Bytes) (h : st.length = 8) :
    (sha256BlockGo st blk).length = 8 := by
  simp [sha256BlockGo, length_foldl_sha256Round, h]

theorem length_foldl_sha256Blocks :
    ∀ (bs : List Bytes) (iv : List Nat), iv.length = 8 →
      (bs.foldl sha256BlockGo iv).length = 8 := by
  intro bs
  induction bs with
  | nil => intro iv h; simpa using h
  | cons b t ih => intro iv h; exact ih _ (length_sha256BlockGo iv b h)

theorem length_flatMap_natToBE (l : List Nat) (k : Nat) :
    (l.flatMap (fun x => natToBE x k)).length = l.length * k := by
  induction l with
  | nil => simp
  | cons a t ih => simp [ih, length_natToBE, Nat.succ_mul, Nat.add_comm]

theorem length_sha256Bytes (msg : Bytes) : (sha256Bytes msg).length = 32 := by
  unfold sha256Bytes sha256Core
  rw [length_flatMap_natToBE, length_foldl_sha256Blocks _ _ (by rfl)]

theorem length_sha224Bytes (msg : Bytes) : (sha224Bytes msg).length = 28 := by
  unfold sha224Bytes sha256Core
  rw [List.length_take, length_flatMap_natToBE, length_foldl_sha256Blocks _ _ (by rfl)]
  decide

theorem length_foldl_sha512Round (w st : List Nat) :
    ((List.range 80).foldl (sha512Round w) st).length = 8 := by
  rw [show (80 : Nat) = 79 + 1 from rfl, List.range_succ, List.foldl_append]
  rfl

theorem length_sha512BlockGo (st : List Nat) (blk : Bytes) (h : st.length = 8) :
    (sha512BlockGo st blk).length = 8 := by
  simp [sha512BlockGo, length_foldl_sha512Round, h]

theorem length_foldl_sha512Blocks :
    ∀ (bs : List Bytes) (iv : List Nat), iv.length = 8 →
      (bs.foldl sha512BlockGo iv).length = 8 := by
  intro bs
  induction bs with
  | nil => intro iv h; simpa using h
  | cons b t ih => intro iv h; exact ih _ (length_sha512BlockGo iv b h)

theorem length_sha512Bytes (msg : Bytes) : (sha512Bytes msg).length = 64 := by
  unfold sha512Bytes sha512Core
  rw [length_flatMap_natToBE, length_foldl_sha512Blocks _ _ (by rfl)]

theorem length_sha384Bytes (msg : Bytes) : (sha384Bytes msg).length = 48 := by
  unfold sha384Bytes sha512Core
  rw [List.length_take, length_flatMap_natToBE, length_foldl_sha512Blocks _ _ (by rfl)]
  decide

end S2nHash

namespace S2nHash

/-- Claim C4 fails as stated: in the low-level backend, `digest` with the
`S2N_HASH_NONE` algorithm performs no size validation at all — the source's
`S2N_HASH_NONE` case has no `eq_check` — so a caller-supplied size of 5
succeeds (writing nothing) even though `digest_size(None) = 0`. -/
theorem claim_C4_counterexample :
    (s2n_low_level_hash_digest (nominalEnv false) mkState 5).2 = .ok [] ∧
    mkState.alg = 0 ∧ digestSizeD 0 = 0 ∧ (5 : Nat) ≠ 0 := by decide

/-- Claim C4 (amended): the generic backend's digest validates the
caller-supplied size against `digest_size(alg)` for every algorithm
(including None) and fails with the size-mismatch (`eq_check`) error
otherwise; the low-level backend does the same for every algorithm *except*
None, whose digest succeeds for any size and writes nothing.  Neither
backend truncates or pads: a successful low-level digest of a non-None
algorithm writes exactly `digest_size(alg)` bytes (36 = 16 + 20 for the
composite), and a successful generic digest implies the caller size
equalled `digest_size(alg)`. -/
theorem claim_C4_size_validation (env : prim_env) (st : s2n_hash_state) (size : Nat) :
    (st.alg ≤ 7 → size ≠ digestSizeD st.alg →
      (s2n_evp_hash_digest env st size).2 = .error .SAFETY ∧
      (1 ≤ st.alg → (s2n_low_level_hash_digest env st size).2 = .error .SAFETY)) ∧
    ((s2n_low_level_hash_digest env { st with alg := 0 } size).2 = .ok []) ∧
    (∀ out, (s2n_low_level_hash_digest env st size).2 = .ok out → 1 ≤ st.alg →
      out.length = digestSizeD st.alg ∧ size = digestSizeD st.alg) ∧
    (∀ out, (s2n_evp_hash_digest env st size).2 = .ok out → size = digestSizeD st.alg) := by
  refine ⟨fun h7 hsz => ⟨?_, fun h1 => ?_⟩, ?_, fun out hok h1 => ?_, fun out hok => ?_⟩
  · rcases halg : st.alg with _ | _ | _ | _ | _ | _ | _ | _ | k
    all_goals
      simp [digestSizeD, s2n_hash_digest_size, Except.toOption, Option.getD, halg,
        MD5_DIGEST_LENGTH, SHA_DIGEST_LENGTH, SHA224_DIGEST_LENGTH, SHA256_DIGEST_LENGTH,
        SHA384_DIGEST_LENGTH, SHA512_DIGEST_LENGTH] at hsz
    all_goals
      simp [s2n_evp_hash_digest, s2n_hash_digest_size, halg, hsz,
        MD5_DIGEST_LENGTH, SHA_DIGEST_LENGTH, SHA224_DIGEST_LENGTH, SHA256_DIGEST_LENGTH,
        SHA384_DIGEST_LENGTH, SHA512_DIGEST_LENGTH]
    omega
  · rcases halg : st.alg with _ | _ | _ | _ | _ | _ | _ | _ | k
    · omega
    all_goals
      simp [digestSizeD, s2n_hash_digest_size, Except.toOption, Option.getD, halg,
        MD5_DIGEST_LENGTH, SHA_DIGEST_LENGTH, SHA224_DIGEST_LENGTH, SHA256_DIGEST_LENGTH,
        SHA384_DIGEST_LENGTH, SHA512_DIGEST_LENGTH] at hsz
    all_goals
      simp [s2n_low_level_hash_digest, halg, hsz,
        MD5_DIGEST_LENGTH, SHA_DIGEST_LENGTH, SHA224_DIGEST_LENGTH, SHA256_DIGEST_LENGTH,
        SHA384_DIGEST_LENGTH, SHA512_DIGEST_LENGTH]
    omega
  · simp [s2n_low_level_hash_digest]
  · rcases halg : st.alg with _ | _ | _ | _ | _ | _ | _ | _ | k
    · omega
    all_goals
      by_cases hf : env.final_ok <;>
        simp [s2n_low_level_hash_digest, halg, hf,
          MD5_DIGEST_LENGTH, SHA_DIGEST_LENGTH, SHA224_DIGEST_LENGTH, SHA256_DIGEST_LENGTH,
          SHA384_DIGEST_LENGTH, SHA512_DIGEST_LENGTH,
          MD5_Final, SHA1_Final, SHA224_Final, SHA256_Final, SHA384_Final, SHA512_Final] at hok <;>
        split at hok <;>
        simp_all [digestSizeD, s2n_hash_digest_size, Except.toOption, Option.getD,
          MD5_DIGEST_LENGTH, SHA_DIGEST_LENGTH, SHA224_DIGEST_LENGTH, SHA256_DIGEST_LENGTH,
          SHA384_DIGEST_LENGTH, SHA512_DIGEST_LENGTH,
          length_md5Bytes, length_sha1Bytes, length_sha224Bytes,
          length_sha256Bytes, length_sha384Bytes, length_sha512Bytes]
    all_goals
      subst hok
      simp [List.length_append, length_md5Bytes, length_sha1Bytes, length_sha224Bytes,
        length_sha256Bytes, length_sha384Bytes, length_sha512Bytes]
  · rcases halg : st.alg with _ | _ | _ | _ | _ | _ | _ | _ | k <;>
      by_cases hs : size = digestSizeD st.alg <;>
        simp_all [s2n_evp_hash_digest, s2n_hash_digest_size, digestSizeD,
          Except.toOption, Option.getD, halg,
          MD5_DIGEST_LENGTH, SHA_DIGEST_LENGTH, SHA224_DIGEST_LENGTH, SHA256_DIGEST_LENGTH,
          SHA384_DIGEST_LENGTH, SHA512_DIGEST_LENGTH]

/-- A generic-backend state holding an initialized SHA1 handle, used by the
C4 witness. -/
def stWitC4 : s2n_hash_state :=
  { alg := 2, evp := { ctx := some { md := some .sha1 } } }

/-- Witness for the amended C4: SHA1 with a mismatched size of 19 fails in
both backends, and a successful generic SHA1 digest implies the size was
exactly 20. -/
theorem claim_C4_witness :
    ((s2n_evp_hash_digest (nominalEnv true) ({ alg := 2 } : s2n_hash_state) 19).2
        = .error .SAFETY ∧
      (s2n_low_level_hash_digest (nominalEnv true) ({ alg := 2 } : s2n_hash_state) 19).2
        = .error .SAFETY) ∧
    (20 : Nat) = digestSizeD stWitC4.alg := by
  constructor
  · have h := (claim_C4_size_validation (nominalEnv true) ({ alg := 2 } : s2n_hash_state) 19).1
      (by decide) (by decide)
    exact ⟨h.1, h.2 (by decide)⟩
  · exact (claim_C4_size_validation (nominalEnv true) stWitC4 20).2.2.2
      (sha1Bytes []) (by decide)

end S2nHash

namespace S2nHash

theorem digest_state_id (env : prim_env) (st : s2n_hash_state) (size : Nat) :
    (s2n_hash_digest env st size).1 = st := by
  rcases himpl : st.hash_impl with _ | _ <;>
    rcases halg : st.alg with _ | _ | _ | _ | _ | _ | _ | _ | k <;>
      simp [s2n_hash_digest, s2n_low_level_hash_digest, s2n_evp_hash_digest,
        s2n_hash_digest_size, himpl, halg] <;>
        (repeat' split) <;> simp

theorem low_init_preserves_impl (env : prim_env) (st : s2n_hash_state) (alg : Nat) :
    (s2n_low_level_hash_init env st alg).1.hash_impl = st.hash_impl := by
  rcases alg with _ | _ | _ | _ | _ | _ | _ | _ | k <;>
    simp [s2n_low_level_hash_init, MD5_Init, SHA1_Init, SHA224_Init, SHA256_Init,
      SHA384_Init, SHA512_Init] <;> split <;> simp

theorem evp_init_preserves_impl (env : prim_env) (st : s2n_hash_state) (alg : Nat) :
    (s2n_evp_hash_init env st alg).1.hash_impl = st.hash_impl := by
  rcases alg with _ | _ | _ | _ | _ | _ | _ | _ | k <;>
    simp [s2n_evp_hash_init, EVP_DigestInit_ex] <;>
      rcases st.evp.ctx with _ | c <;> rcases st.evp_md5_secondary.ctx with _ | c2 <;>
        simp <;> split <;> simp

theorem allow_md5_fips_true (env : prim_env) (X : s2n_hash_state) (hf : env.fips = true) :
    s2n_hash_allow_md5_for_fips env X =
      ({ X with hash_impl := .evp, evp := s2n_digest_allow_md5_for_fips X.evp }, .ok ()) := by
  simp [s2n_hash_allow_md5_for_fips, s2n_hash_set_impl, hf, s2n_evp_hash_allow_md5_for_fips]

theorem allow_md5_fips_false (env : prim_env) (X : s2n_hash_state) (hf : env.fips = false) :
    s2n_hash_allow_md5_for_fips env X =
      ({ X with hash_impl := .low_level }, .error .NULL_ERR) := by
  simp [s2n_hash_allow_md5_for_fips, s2n_hash_set_impl, hf]

/-- Claim C2 fails as stated: with certified mode active, `s2n_hash_update`
leaves a stale low-level backend reference on the state and dispatches
through it (no re-resolution at entry, and the call succeeds through the
low-level backend), while `s2n_hash_reset` on the very same state does
re-resolve to the generic backend. -/
theorem claim_C2_counterexample :
    (nominalEnv true).fips = true ∧
    (s2n_hash_update (nominalEnv true) ({ alg := 2 } : s2n_hash_state) [1]).1.hash_impl
      = hash_impl_kind.low_level ∧
    (s2n_hash_update (nominalEnv true) ({ alg := 2 } : s2n_hash_state) [1]).2 = .ok () ∧
    (s2n_hash_reset (nominalEnv true) ({ alg := 2 } : s2n_hash_state)).1.hash_impl
      = hash_impl_kind.evp := by decide

/-- Claim C2 (amended): only the mode-sensitive entry points `new`,
`allow_md5_for_fips`, `init`, `reset` and `free` re-resolve the backend fresh
at entry from the current certified-mode flag (the resulting backend
reference is a function of the current mode alone, regardless of what was
cached on the state); `update`, `digest` and `copy` do not re-resolve:
`update` and `digest` are independent of the current mode and leave the
stored backend reference unchanged, and `copy` dispatches on the backend
stored on the source state (its result carries the source's backend
reference on success, and it consults the current mode only through the
public allow-override call used when propagating the MD5 override flag). -/
theorem claim_C2_backend_resolution (env : prim_env) (st dst src : s2n_hash_state)
    (alg size : Nat) (data : Bytes) :
    ((s2n_hash_new env st).1.hash_impl
      = (if env.fips then hash_impl_kind.evp else .low_level)) ∧
    ((s2n_hash_allow_md5_for_fips env st).1.hash_impl
      = (if env.fips then hash_impl_kind.evp else .low_level)) ∧
    ((s2n_hash_init env st alg).1.hash_impl
      = (if env.fips then hash_impl_kind.evp else .low_level)) ∧
    ((s2n_hash_reset env st).1.hash_impl
      = (if env.fips then hash_impl_kind.evp else .low_level)) ∧
    ((s2n_hash_free env st).1.hash_impl
      = (if env.fips then hash_impl_kind.evp else .low_level)) ∧
    (∀ b, s2n_hash_update { env with fips := b } st data = s2n_hash_update env st data) ∧
    ((s2n_hash_update env st data).1.hash_impl = st.hash_impl) ∧
    (∀ b, s2n_hash_digest { env with fips := b } st size = s2n_hash_digest env st size) ∧
    ((s2n_hash_digest env st size).1.hash_impl = st.hash_impl) ∧
    (s2n_digest_is_md5_allowed_for_fips src.evp = false →
      ∀ b, s2n_hash_copy { env with fips := b } dst src = s2n_hash_copy env dst src) ∧
    ((s2n_hash_copy env dst src).2 = .ok () →
      (s2n_hash_copy env dst src).1.hash_impl = src.hash_impl) := by
  refine ⟨?_, ?_, ?_, ?_, ?_, fun b => ?_, ?_, fun b => ?_, ?_, fun hflag b => ?_, fun hok => ?_⟩
  · by_cases hf : env.fips <;> by_cases hn : env.new_ok <;>
      simp [s2n_hash_new, s2n_hash_set_impl, hf, hn, s2n_low_level_hash_new,
        s2n_evp_hash_new, S2N_EVP_MD_CTX_NEW]
  · by_cases hf : env.fips <;>
      simp [allow_md5_fips_true, allow_md5_fips_false, hf]
  · by_cases hf : env.fips <;>
      simp [s2n_hash_init, s2n_hash_set_impl, hf] <;> split <;>
        simp [low_init_preserves_impl, evp_init_preserves_impl]
  · by_cases hf : env.fips
    · simp only [s2n_hash_reset, s2n_hash_set_impl, hf, if_true]
      simp only [s2n_evp_hash_reset, S2N_EVP_MD_CTX_RESET]
      (repeat' split) <;>
        simp_all [allow_md5_fips_true, evp_init_preserves_impl, S2N_HASH_MD5,
          S2N_HASH_MD5_SHA1]
    · simp [s2n_hash_reset, s2n_hash_set_impl, hf, s2n_low_level_hash_reset,
        low_init_preserves_impl]
  · by_cases hf : env.fips <;>
      simp [s2n_hash_free, s2n_hash_set_impl, hf, s2n_low_level_hash_free, s2n_evp_hash_free]
  · rcases himpl : st.hash_impl with _ | _ <;>
      rcases halg : st.alg with _ | _ | _ | _ | _ | _ | _ | _ | k <;>
        simp [s2n_hash_update, s2n_low_level_hash_update, s2n_evp_hash_update, himpl, halg,
          MD5_Update, SHA1_Update, SHA224_Update, SHA256_Update, SHA384_Update, SHA512_Update,
          ctxUpdate, EVP_DigestUpdate]
  · exact (s2n_hash_update_preserves_alg_impl env st data).2
  · rcases himpl : st.hash_impl with _ | _ <;>
      rcases halg : st.alg with _ | _ | _ | _ | _ | _ | _ | _ | k <;>
        simp [s2n_hash_digest, s2n_low_level_hash_digest, s2n_evp_hash_digest,
          s2n_hash_digest_size, himpl, halg,
          MD5_Final, SHA1_Final, SHA224_Final, SHA256_Final, SHA384_Final, SHA512_Final,
          EVP_DigestFinal_ex]
  · simp [digest_state_id]
  · rcases himpl : src.hash_impl with _ | _
    · simp [s2n_hash_copy, himpl]
    · rcases halg : src.alg with _ | _ | _ | _ | _ | _ | _ | _ | k <;>
        simp [s2n_hash_copy, himpl, s2n_evp_hash_copy, halg,
          s2n_digest_is_md5_allowed_for_fips] at hflag ⊢ <;>
          simp [hflag, EVP_MD_CTX_copy_ex]
  · rcases himpl : src.hash_impl with _ | _
    · simp [s2n_hash_copy, himpl, s2n_low_level_hash_copy]
    · revert hok
      rcases halg : src.alg with _ | _ | _ | _ | _ | _ | _ | _ | k <;>
        simp only [s2n_hash_copy, himpl, s2n_evp_hash_copy, halg] <;>
          (repeat' split) <;> simp_all

/-- Witness for the amended C2: concrete consequences at a state holding a
SHA1 source with the override flag unset, under certified mode. -/
theorem claim_C2_witness :
    s2n_hash_copy { nominalEnv true with fips := false } mkState
        ({ alg := 2, hash_impl := .evp } : s2n_hash_state)
      = s2n_hash_copy (nominalEnv true) mkState
        ({ alg := 2, hash_impl := .evp } : s2n_hash_state) ∧
    (s2n_hash_new (nominalEnv true) mkState).1.hash_impl = hash_impl_kind.evp := by
  constructor
  · exact (claim_C2_backend_resolution (nominalEnv true) mkState mkState
      ({ alg := 2, hash_impl := .evp } : s2n_hash_state) 0 0 []).2.2.2.2.2.2.2.2.2.1
      (by decide) false
  · have h := (claim_C2_backend_resolution (nominalEnv true) mkState mkState mkState
      0 0 []).1
    simpa using h

end S2nHash

namespace S2nHash

/-- A generic-backend state with the MD5 override set and a handle
allocated, as produced by `new` followed by `allow_md5_for_fips`; used by the
C3 witness. -/
def stWitC3 : s2n_hash_state :=
  { evp := { ctx := some {}, md5_allowed_for_fips := true },
    evp_md5_secondary := { ctx := some {} } }

/-- Claim C3: with certified mode active and the per-state MD5 override
unset, `s2n_hash_init` with MD5 or with CompositeMD5SHA1 fails with
`HASH_INVALID_ALGORITHM`; with the override set beforehand (the handle having
been acquired and the underlying init succeeding), `init` with MD5 succeeds;
and in general `init` rejects any algorithm whose availability check returns
false, unless the override is set and the algorithm is exactly MD5. -/
theorem claim_C3_init_availability (env : prim_env) (st : s2n_hash_state)
    (hf : env.fips = true) :
    (s2n_digest_is_md5_allowed_for_fips st.evp = false →
      (s2n_hash_init env st S2N_HASH_MD5).2 = .error .HASH_INVALID_ALGORITHM ∧
      (s2n_hash_init env st S2N_HASH_MD5_SHA1).2 = .error .HASH_INVALID_ALGORITHM) ∧
    (s2n_digest_is_md5_allowed_for_fips st.evp = true → env.init_ok = true →
      st.evp.ctx.isSome = true →
      (s2n_hash_init env st S2N_HASH_MD5).2 = .ok ()) ∧
    (∀ alg, (alg = S2N_HASH_MD5 → s2n_digest_is_md5_allowed_for_fips st.evp = false) →
      s2n_hash_is_available env.fips alg = .ok false →
      (s2n_hash_init env st alg).2 = .error .HASH_INVALID_ALGORITHM) := by
  refine ⟨fun hflag => ?_, fun hflag hinit hctx => ?_, fun alg himp hav => ?_⟩
  · simp only [s2n_digest_is_md5_allowed_for_fips] at hflag
    constructor <;>
      simp [s2n_hash_init, s2n_hash_set_impl, hf, cTruthy, s2n_hash_is_available,
        S2N_HASH_MD5, S2N_HASH_MD5_SHA1, s2n_digest_is_md5_allowed_for_fips, hflag]
  · obtain ⟨c, hc⟩ := Option.isSome_iff_exists.1 hctx
    simp only [s2n_digest_is_md5_allowed_for_fips] at hflag
    simp [s2n_hash_init, s2n_hash_set_impl, hf, cTruthy, s2n_hash_is_available,
      S2N_HASH_MD5, s2n_digest_is_md5_allowed_for_fips, hflag,
      s2n_evp_hash_init, EVP_DigestInit_ex, hc, hinit]
  · rw [hf] at hav
    by_cases halg : alg = 1
    · subst halg
      have hflag := himp rfl
      simp only [s2n_digest_is_md5_allowed_for_fips] at hflag
      simp [s2n_hash_init, s2n_hash_set_impl, hf, cTruthy, s2n_hash_is_available,
        S2N_HASH_MD5, s2n_digest_is_md5_allowed_for_fips, hflag]
    · simp [s2n_hash_init, s2n_hash_set_impl, hf, cTruthy, hav, S2N_HASH_MD5,
        s2n_digest_is_md5_allowed_for_fips, halg]

/-- Witness for C3: under certified mode, `init` with MD5 and with the
composite fails on a fresh state; with the override set it succeeds for MD5;
and the composite is rejected independently of the override. -/
theorem claim_C3_witness :
    (s2n_hash_init (nominalEnv true) mkState 1).2 = .error .HASH_INVALID_ALGORITHM ∧
    (s2n_hash_init (nominalEnv true) mkState 7).2 = .error .HASH_INVALID_ALGORITHM ∧
    (s2n_hash_init (nominalEnv true) stWitC3 1).2 = .ok () ∧
    (s2n_hash_init (nominalEnv true) stWitC3 7).2 = .error .HASH_INVALID_ALGORITHM := by
  have h1 := (claim_C3_init_availability (nominalEnv true) mkState rfl).1 (by decide)
  have h2 := (claim_C3_init_availability (nominalEnv true) stWitC3 rfl).2.1
    (by decide) (by decide) (by decide)
  have h3 := (claim_C3_init_availability (nominalEnv true) stWitC3 rfl).2.2 7
    (by decide) (by decide)
  exact ⟨h1.1, h1.2, h2, h3⟩

end S2nHash

namespace S2nHash

/-- A generic-backend SHA1 source state with the MD5 override flag set, used
by the C7 counterexample. -/
def srcWitC7 : s2n_hash_state :=
  { alg := 2, hash_impl := .evp,
    evp := { ctx := some { md := some .sha1, data := [1] }, md5_allowed_for_fips := true } }

/-- Claim C7 fails as stated: the generic-backend copy propagates the MD5
override flag only when the source algorithm is MD5 or CompositeMD5SHA1.
For a SHA1 source with the flag set the copy succeeds, yet the destination's
flag remains unset. -/
theorem claim_C7_counterexample :
    s2n_digest_is_md5_allowed_for_fips srcWitC7.evp = true ∧
    (s2n_evp_hash_copy (nominalEnv true)
      (s2n_hash_new (nominalEnv true) mkState).1 srcWitC7).2 = .ok () ∧
    s2n_digest_is_md5_allowed_for_fips
      (s2n_evp_hash_copy (nominalEnv true)
        (s2n_hash_new (nominalEnv true) mkState).1 srcWitC7).1.evp = false := by decide

/-- Claim C7 (amended): generic-backend copy duplicates the primary handle
for every non-None source algorithm and the secondary handle only for
CompositeMD5SHA1 (for None nothing is duplicated and the destination handles
are untouched); on success it propagates the algorithm tag and backend
reference to the destination; it propagates the MD5 override flag only when
the source algorithm is MD5 or CompositeMD5SHA1 and the flag is set on the
source (for other algorithms the destination keeps its own flag); and it
fails with `HASH_COPY_FAILED` when an underlying duplication call fails. -/
theorem claim_C7_copy_semantics (env : prim_env) (dst src : s2n_hash_state)
    (hf : env.fips = true)
    (hd : dst.evp.ctx.isSome = true) (hd2 : dst.evp_md5_secondary.ctx.isSome = true)
    (hs : src.evp.ctx.isSome = true) (hs2 : src.evp_md5_secondary.ctx.isSome = true) :
    (src.alg = 0 →
      (s2n_evp_hash_copy env dst src).2 = .ok () ∧
      (s2n_evp_hash_copy env dst src).1.evp.ctx = dst.evp.ctx ∧
      (s2n_evp_hash_copy env dst src).1.evp_md5_secondary.ctx = dst.evp_md5_secondary.ctx ∧
      (s2n_evp_hash_copy env dst src).1.alg = src.alg ∧
      (s2n_evp_hash_copy env dst src).1.hash_impl = src.hash_impl) ∧
    (1 ≤ src.alg → src.alg ≤ 7 → env.copy_ok = true →
      (s2n_evp_hash_copy env dst src).2 = .ok () ∧
      (s2n_evp_hash_copy env dst src).1.evp.ctx = src.evp.ctx ∧
      (s2n_evp_hash_copy env dst src).1.evp_md5_secondary.ctx =
        (if src.alg = 7 then src.evp_md5_secondary.ctx else dst.evp_md5_secondary.ctx) ∧
      (s2n_evp_hash_copy env dst src).1.alg = src.alg ∧
      (s2n_evp_hash_copy env dst src).1.hash_impl = src.hash_impl ∧
      (s2n_evp_hash_copy env dst src).1.evp.md5_allowed_for_fips =
        (((src.alg == 1) || (src.alg == 7)) && src.evp.md5_allowed_for_fips
          || dst.evp.md5_allowed_for_fips)) ∧
    (1 ≤ src.alg → src.alg ≤ 7 → env.copy_ok = false →
      (s2n_evp_hash_copy env dst src).2 = .error .HASH_COPY_FAILED) := by
  obtain ⟨dc, hdc⟩ := Option.isSome_iff_exists.1 hd
  obtain ⟨dc2, hdc2⟩ := Option.isSome_iff_exists.1 hd2
  obtain ⟨sc, hsc⟩ := Option.isSome_iff_exists.1 hs
  obtain ⟨sc2, hsc2⟩ := Option.isSome_iff_exists.1 hs2
  refine ⟨fun h0 => ?_, fun h1 h7 hco => ?_, fun h1 h7 hco => ?_⟩
  · simp [s2n_evp_hash_copy, h0]
  · rcases halg : src.alg with _ | _ | _ | _ | _ | _ | _ | _ | k <;>
      first
      | omega
      | (by_cases hflag : src.evp.md5_allowed_for_fips <;>
          simp [s2n_evp_hash_copy, halg, s2n_digest_is_md5_allowed_for_fips, hflag,
            allow_md5_fips_true, hf, s2n_digest_allow_md5_for_fips,
            EVP_MD_CTX_copy_ex, hdc, hdc2, hsc, hsc2, hco])
  · rcases halg : src.alg with _ | _ | _ | _ | _ | _ | _ | _ | k <;>
      first
      | omega
      | (by_cases hflag : src.evp.md5_allowed_for_fips <;>
          simp [s2n_evp_hash_copy, halg, s2n_digest_is_md5_allowed_for_fips, hflag,
            allow_md5_fips_true, hf, s2n_digest_allow_md5_for_fips,
            EVP_MD_CTX_copy_ex, hdc, hdc2, hsc, hsc2, hco])

/-- A composite (MD5+SHA1) generic-backend source with the override set, and
a freshly created destination: the C7 witness instantiates the amended claim
on them. -/
def srcWitC7b : s2n_hash_state :=
  { alg := 7, hash_impl := .evp,
    evp := { ctx := some { md := some .sha1, data := [1] }, md5_allowed_for_fips := true },
    evp_md5_secondary := { ctx := some { md := some .md5, data := [1] } } }

/-- Witness for the amended C7: copying a composite source duplicates both
handles, propagates tag, backend and override flag; with a failing
duplication call the copy fails with `HASH_COPY_FAILED`. -/
theorem claim_C7_witness :
    ((s2n_evp_hash_copy (nominalEnv true) stWitC3 srcWitC7b).2 = .ok () ∧
      (s2n_evp_hash_copy (nominalEnv true) stWitC3 srcWitC7b).1.evp.ctx = srcWitC7b.evp.ctx ∧
      (s2n_evp_hash_copy (nominalEnv true) stWitC3 srcWitC7b).1.evp_md5_secondary.ctx
        = srcWitC7b.evp_md5_secondary.ctx ∧
      (s2n_evp_hash_copy (nominalEnv true) stWitC3 srcWitC7b).1.alg = 7 ∧
      (s2n_evp_hash_copy (nominalEnv true) stWitC3 srcWitC7b).1.hash_impl = .evp ∧
      (s2n_evp_hash_copy (nominalEnv true) stWitC3 srcWitC7b).1.evp.md5_allowed_for_fips
        = true) ∧
    (s2n_evp_hash_copy { fips := true, copy_ok := false } stWitC3 srcWitC7b).2
      = .error .HASH_COPY_FAILED := by
  constructor
  · have h := (claim_C7_copy_semantics (nominalEnv true) stWitC3 srcWitC7b rfl
      (by decide) (by decide) (by decide) (by decide)).2.1 (by decide) (by decide) rfl
    refine ⟨h.1, h.2.1, ?_, ?_, h.2.2.2.2.1, ?_⟩
    · have := h.2.2.1
      simpa using this
    · have := h.2.2.2.1
      simpa using this
    · have := h.2.2.2.2.2
      simpa using this
  · exact (claim_C7_copy_semantics { fips := true, copy_ok := false } stWitC3 srcWitC7b rfl
      (by decide) (by decide) (by decide) (by decide)).2.2 (by decide) (by decide) rfl

end S2nHash

namespace S2nHash

/-- Claim C1: for the composite algorithm, digest in both backends writes the
MD5 finalization into output bytes `[0,16)` and the SHA1 finalization into
bytes `[16,36)`: after create/init/update with any input, both backends
produce the identical 36-byte output `MD5(input) ++ SHA1(input)`; in
particular for input abc (bytes 0x61 0x62 0x63) the output is hex
900150983cd24fb0d6963f7d28e17f72 followed by
a9993e364706816aba3e25717850c26c9cd0d89d. -/
theorem claim_C1_composite_layout (msg : Bytes) :
    (s2n_low_level_hash_digest (nominalEnv false)
      (s2n_low_level_hash_update (nominalEnv false)
        (s2n_low_level_hash_init (nominalEnv false)
          (s2n_low_level_hash_new mkState).1 7).1 msg).1 36).2
      = .ok (md5Bytes msg ++ sha1Bytes msg) ∧
    (s2n_evp_hash_digest (nominalEnv true)
      (s2n_evp_hash_update (nominalEnv true)
        (s2n_evp_hash_init (nominalEnv true)
          (s2n_evp_hash_new (nominalEnv true) mkState).1 7).1 msg).1 36).2
      = .ok (md5Bytes msg ++ sha1Bytes msg) ∧
    md5Bytes [0x61, 0x62, 0x63] = [0x90, 0x01, 0x50, 0x98, 0x3c, 0xd2, 0x4f, 0xb0,
      0xd6, 0x96, 0x3f, 0x7d, 0x28, 0xe1, 0x7f, 0x72] ∧
    sha1Bytes [0x61, 0x62, 0x63] = [0xa9, 0x99, 0x3e, 0x36, 0x47, 0x06, 0x81, 0x6a,
      0xba, 0x3e, 0x25, 0x71, 0x78, 0x50, 0xc2, 0x6c, 0x9c, 0xd0, 0xd8, 0x9d] := by
  refine ⟨?_, ?_, by decide, by decide⟩
  · simp [s2n_low_level_hash_digest, s2n_low_level_hash_update, s2n_low_level_hash_init,
      s2n_low_level_hash_new, mkState, nominalEnv, MD5_Init, SHA1_Init, MD5_Update,
      SHA1_Update, ctxUpdate, MD5_Final, SHA1_Final, MD5_DIGEST_LENGTH, SHA_DIGEST_LENGTH]
  · simp [s2n_evp_hash_digest, s2n_evp_hash_update, s2n_evp_hash_init, s2n_evp_hash_new,
      mkState, nominalEnv, S2N_EVP_MD_CTX_NEW, EVP_DigestInit_ex, EVP_DigestUpdate,
      EVP_DigestFinal_ex, evpDigestOf, s2n_hash_digest_size,
      MD5_DIGEST_LENGTH, SHA_DIGEST_LENGTH]

end S2nHash

namespace S2nHash

/-- Left-fold concatenation of a sequence of update chunks onto an
accumulated byte sequence. -/
def feedAll (ctx : Bytes) (msgs : List Bytes) : Bytes :=
  msgs.foldl (fun a m => a ++ m) ctx

/-- A freshly created state initialized with `alg` through the public
dispatcher. -/
def freshInit (env : prim_env) (alg : Nat) : s2n_hash_state :=
  (s2n_hash_init env (s2n_hash_new env mkState).1 alg).1

theorem s2n_hash_update_alg0 (env : prim_env) (st : s2n_hash_state) (m : Bytes)
    (h : st.alg = 0) : s2n_hash_update env st m = (st, .ok ()) := by
  rcases himpl : st.hash_impl with _ | _ <;>
    simp [s2n_hash_update, himpl, s2n_low_level_hash_update, s2n_evp_hash_update, h]

theorem applyUpdates_alg0 (env : prim_env) (msgs : List Bytes) :
    ∀ st : s2n_hash_state, st.alg = 0 → applyUpdates env st msgs = st := by
  induction msgs with
  | nil => intro st h; rfl
  | cons m ms ih =>
    intro st h
    show applyUpdates env (s2n_hash_update env st m).1 ms = st
    rw [s2n_hash_update_alg0 env st m h]
    exact ih st h

theorem s2n_hash_digest_alg0 (env : prim_env) (st : s2n_hash_state)
    (h : st.alg = 0) : (s2n_hash_digest env st 0).2 = .ok [] := by
  rcases himpl : st.hash_impl with _ | _ <;>
    simp [s2n_hash_digest, himpl, s2n_low_level_hash_digest, s2n_evp_hash_digest,
      s2n_hash_digest_size, h]

theorem s2n_hash_update_evp_single (env : prim_env) (st : s2n_hash_state) (m : Bytes)
    (c : EVP_MD_CTX_t) (himpl : st.hash_impl = .evp) (h1 : 1 ≤ st.alg) (h6 : st.alg ≤ 6)
    (hc : st.evp.ctx = some c) (hup : env.update_ok = true) :
    s2n_hash_update env st m
      = ({ st with evp.ctx := some { c with data := c.data ++ m } }, .ok ()) := by
  rcases halg : st.alg with _ | _ | _ | _ | _ | _ | _ | _ | k <;>
    first
    | omega
    | simp [s2n_hash_update, himpl, s2n_evp_hash_update, halg, EVP_DigestUpdate, hc, hup]

theorem applyUpdates_evp_single (env : prim_env) (hup : env.update_ok = true)
    (msgs : List Bytes) :
    ∀ (st : s2n_hash_state) (c : EVP_MD_CTX_t), st.hash_impl = .evp →
      1 ≤ st.alg → st.alg ≤ 6 → st.evp.ctx = some c →
      applyUpdates env st msgs
        = { st with evp.ctx := some { c with data := feedAll c.data msgs } } := by
  induction msgs with
  | nil =>
    intro st c himpl h1 h6 hc
    show st = { st with evp.ctx := some { c with data := c.data } }
    rw [show some ({ c with data := c.data } : EVP_MD_CTX_t) = st.evp.ctx from hc.symm]
  | cons m ms ih =>
    intro st c himpl h1 h6 hc
    show applyUpdates env (s2n_hash_update env st m).1 ms = _
    rw [s2n_hash_update_evp_single env st m c himpl h1 h6 hc hup]
    have := ih { st with evp.ctx := some { c with data := c.data ++ m } }
      { c with data := c.data ++ m } (by simpa using himpl) (by simpa using h1)
      (by simpa using h6) (by simp)
    simpa [feedAll] using this

end S2nHash

namespace S2nHash

theorem applyUpdates_low1 (env : prim_env) (hup : env.update_ok = true)
    (msgs : List Bytes) :
    ∀ st : s2n_hash_state, st.hash_impl = .low_level → st.alg = 1 →
      applyUpdates env st msgs
        = { st with low_level.md5 := feedAll st.low_level.md5 msgs } := by
  induction msgs with
  | nil => intro st himpl halg; rfl
  | cons m ms ih =>
    intro st himpl halg
    show applyUpdates env (s2n_hash_update env st m).1 ms = _
    rw [show s2n_hash_update env st m
        = ({ st with low_level.md5 := st.low_level.md5 ++ m }, .ok ()) from by
      simp [s2n_hash_update, himpl, s2n_low_level_hash_update, halg, MD5_Update,
        ctxUpdate, hup]]
    simpa [feedAll] using ih { st with low_level.md5 := st.low_level.md5 ++ m }
      (by simpa using himpl) (by simpa using halg)

theorem applyUpdates_low2 (env : prim_env) (hup : env.update_ok = true)
    (msgs : List Bytes) :
    ∀ st : s2n_hash_state, st.hash_impl = .low_level → st.alg = 2 →
      applyUpdates env st msgs
        = { st with low_level.sha1 := feedAll st.low_level.sha1 msgs } := by
  induction msgs with
  | nil => intro st himpl halg; rfl
  | cons m ms ih =>
    intro st himpl halg
    show applyUpdates env (s2n_hash_update env st m).1 ms = _
    rw [show s2n_hash_update env st m
        = ({ st with low_level.sha1 := st.low_level.sha1 ++ m }, .ok ()) from by
      simp [s2n_hash_update, himpl, s2n_low_level_hash_update, halg, SHA1_Update,
        ctxUpdate, hup]]
    simpa [feedAll] using ih { st with low_level.sha1 := st.low_level.sha1 ++ m }
      (by simpa using himpl) (by simpa using halg)

theorem applyUpdates_low3 (env : prim_env) (hup : env.update_ok = true)
    (msgs : List Bytes) :
    ∀ st : s2n_hash_state, st.hash_impl = .low_level → st.alg = 3 →
      applyUpdates env st msgs
        = { st with low_level.sha224 := feedAll st.low_level.sha224 msgs } := by
  induction msgs with
  | nil => intro st himpl halg; rfl
  | cons m ms ih =>
    intro st himpl halg
    show applyUpdates env (s2n_hash_update env st m).1 ms = _
    rw [show s2n_hash_update env st m
        = ({ st with low_level.sha224 := st.low_level.sha224 ++ m }, .ok ()) from by
      simp [s2n_hash_update, himpl, s2n_low_level_hash_update, halg, SHA224_Update,
        ctxUpdate, hup]]
    simpa [feedAll] using ih { st with low_level.sha224 := st.low_level.sha224 ++ m }
      (by simpa using himpl) (by simpa using halg)

theorem applyUpdates_low4 (env : prim_env) (hup : env.update_ok = true)
    (msgs : List Bytes) :
    ∀ st : s2n_hash_state, st.hash_impl = .low_level → st.alg = 4 →
      applyUpdates env st msgs
        = { st with low_level.sha256 := feedAll st.low_level.sha256 msgs } := by
  induction msgs with
  | nil => intro st himpl halg; rfl
  | cons m ms ih =>
    intro st himpl halg
    show applyUpdates env (s2n_hash_update env st m).1 ms = _
    rw [show s2n_hash_update env st m
        = ({ st with low_level.sha256 := st.low_level.sha256 ++ m }, .ok ()) from by
      simp [s2n_hash_update, himpl, s2n_low_level_hash_update, halg, SHA256_Update,
        ctxUpdate, hup]]
    simpa [feedAll] using ih { st with low_level.sha256 := st.low_level.sha256 ++ m }
      (by simpa using himpl) (by simpa using halg)

theorem applyUpdates_low5 (env : prim_env) (hup : env.update_ok = true)
    (msgs : List Bytes) :
    ∀ st : s2n_hash_state, st.hash_impl = .low_level → st.alg = 5 →
      applyUpdates env st msgs
        = { st with low_level.sha384 := feedAll st.low_level.sha384 msgs } := by
  induction msgs with
  | nil => intro st himpl halg; rfl
  | cons m ms ih =>
    intro st himpl halg
    show applyUpdates env (s2n_hash_update env st m).1 ms = _
    rw [show s2n_hash_update env st m
        = ({ st with low_level.sha384 := st.low_level.sha384 ++ m }, .ok ()) from by
      simp [s2n_hash_update, himpl, s2n_low_level_hash_update, halg, SHA384_Update,
        ctxUpdate, hup]]
    simpa [feedAll] using ih { st with low_level.sha384 := st.low_level.sha384 ++ m }
      (by simpa using himpl) (by simpa using halg)

theorem applyUpdates_low6 (env : prim_env) (hup : env.update_ok = true)
    (msgs : List Bytes) :
    ∀ st : s2n_hash_state, st.hash_impl = .low_level → st.alg = 6 →
      applyUpdates env st msgs
        = { st with low_level.sha512 := feedAll st.low_level.sha512 msgs } := by
  induction msgs with
  | nil => intro st himpl halg; rfl
  | cons m ms ih =>
    intro st himpl halg
    show applyUpdates env (s2n_hash_update env st m).1 ms = _
    rw [show s2n_hash_update env st m
        = ({ st with low_level.sha512 := st.low_level.sha512 ++ m }, .ok ()) from by
      simp [s2n_hash_update, himpl, s2n_low_level_hash_update, halg, SHA512_Update,
        ctxUpdate, hup]]
    simpa [feedAll] using ih { st with low_level.sha512 := st.low_level.sha512 ++ m }
      (by simpa using himpl) (by simpa using halg)

theorem applyUpdates_low7 (env : prim_env) (hup : env.update_ok = true)
    (msgs : List Bytes) :
    ∀ st : s2n_hash_state, st.hash_impl = .low_level → st.alg = 7 →
      applyUpdates env st msgs
        = { st with low_level.md5_sha1 :=
              { sha1 := feedAll st.low_level.md5_sha1.sha1 msgs,
                md5 := feedAll st.low_level.md5_sha1.md5 msgs } } := by
  induction msgs with
  | nil => intro st himpl halg; rfl
  | cons m ms ih =>
    intro st himpl halg
    show applyUpdates env (s2n_hash_update env st m).1 ms = _
    rw [show s2n_hash_update env st m
        = ({ st with low_level.md5_sha1 :=
              { sha1 := st.low_level.md5_sha1.sha1 ++ m,
                md5 := st.low_level.md5_sha1.md5 ++ m } }, .ok ()) from by
      simp [s2n_hash_update, himpl, s2n_low_level_hash_update, halg, MD5_Update,
        SHA1_Update, ctxUpdate, hup]]
    simpa [feedAll] using ih { st with low_level.md5_sha1 :=
        { sha1 := st.low_level.md5_sha1.sha1 ++ m, md5 := st.low_level.md5_sha1.md5 ++ m } }
      (by simpa using himpl) (by simpa using halg)

end S2nHash

namespace S2nHash

/-- Claim C8: for every algorithm and every sequence of updates, resetting an
initialized state (created, initialized with `alg`, and fed an arbitrary
prior sequence of updates) and then applying a sequence of updates followed
by digest yields the same output bytes as applying that same sequence of
updates and digest to a freshly created state initialized with the same
algorithm — for both backends (the certified-mode flag `b` selects the
backend).  The hypothesis `hok` states that initializing a fresh state with
`alg` succeeds, which is the premise of the scenario. -/
theorem claim_C8_reset_equivalence (b : Bool) (alg : Nat) (prior msgs : List Bytes)
    (halg : alg ≤ 7)
    (hok : (s2n_hash_init (nominalEnv b) (s2n_hash_new (nominalEnv b) mkState).1 alg).2
      = .ok ()) :
    (s2n_hash_digest (nominalEnv b)
        (applyUpdates (nominalEnv b)
          (s2n_hash_reset (nominalEnv b)
            (applyUpdates (nominalEnv b) (freshInit (nominalEnv b) alg) prior)).1 msgs)
        (digestSizeD alg)).2
      = (s2n_hash_digest (nominalEnv b)
          (applyUpdates (nominalEnv b) (freshInit (nominalEnv b) alg) msgs)
          (digestSizeD alg)).2 := by
  cases b
  · interval_cases alg
    · have hR : (s2n_hash_reset (nominalEnv false)
          (applyUpdates (nominalEnv false) (freshInit (nominalEnv false) 0) prior)).1
          = freshInit (nominalEnv false) 0 := by
        rw [show freshInit (nominalEnv false) 0
            = ({ hash_impl := .low_level } : s2n_hash_state) from by decide,
          applyUpdates_alg0 (nominalEnv false) prior _ rfl]
        rfl
      rw [hR]
    · have hR : (s2n_hash_reset (nominalEnv false)
          (applyUpdates (nominalEnv false) (freshInit (nominalEnv false) 1) prior)).1
          = freshInit (nominalEnv false) 1 := by
        rw [show freshInit (nominalEnv false) 1
            = ({ alg := 1, hash_impl := .low_level } : s2n_hash_state) from by decide,
          applyUpdates_low1 (nominalEnv false) rfl prior _ rfl rfl]
        rfl
      rw [hR]
    · have hR : (s2n_hash_reset (nominalEnv false)
          (applyUpdates (nominalEnv false) (freshInit (nominalEnv false) 2) prior)).1
          = freshInit (nominalEnv false) 2 := by
        rw [show freshInit (nominalEnv false) 2
            = ({ alg := 2, hash_impl := .low_level } : s2n_hash_state) from by decide,
          applyUpdates_low2 (nominalEnv false) rfl prior _ rfl rfl]
        rfl
      rw [hR]
    · have hR : (s2n_hash_reset (nominalEnv false)
          (applyUpdates (nominalEnv false) (freshInit (nominalEnv false) 3) prior)).1
          = freshInit (nominalEnv false) 3 := by
        rw [show freshInit (nominalEnv false) 3
            = ({ alg := 3, hash_impl := .low_level } : s2n_hash_state) from by decide,
          applyUpdates_low3 (nominalEnv false) rfl prior _ rfl rfl]
        rfl
      rw [hR]
    · have hR : (s2n_hash_reset (nominalEnv false)
          (applyUpdates (nominalEnv false) (freshInit (nominalEnv false) 4) prior)).1
          = freshInit (nominalEnv false) 4 := by
        rw [show freshInit (nominalEnv false) 4
            = ({ alg := 4, hash_impl := .low_level } : s2n_hash_state) from by decide,
          applyUpdates_low4 (nominalEnv false) rfl prior _ rfl rfl]
        rfl
      rw [hR]
    · have hR : (s2n_hash_reset (nominalEnv false)
          (applyUpdates (nominalEnv false) (freshInit (nominalEnv false) 5) prior)).1
          = freshInit (nominalEnv false) 5 := by
        rw [show freshInit (nominalEnv false) 5
            = ({ alg := 5, hash_impl := .low_level } : s2n_hash_state) from by decide,
          applyUpdates_low5 (nominalEnv false) rfl prior _ rfl rfl]
        rfl
      rw [hR]
    · have hR : (s2n_hash_reset (nominalEnv false)
          (applyUpdates (nominalEnv false) (freshInit (nominalEnv false) 6) prior)).1
          = freshInit (nominalEnv false) 6 := by
        rw [show freshInit (nominalEnv false) 6
            = ({ alg := 6, hash_impl := .low_level } : s2n_hash_state) from by decide,
          applyUpdates_low6 (nominalEnv false) rfl prior _ rfl rfl]
        rfl
      rw [hR]
    · have hR : (s2n_hash_reset (nominalEnv false)
          (applyUpdates (nominalEnv false) (freshInit (nominalEnv false) 7) prior)).1
          = freshInit (nominalEnv false) 7 := by
        rw [show freshInit (nominalEnv false) 7
            = ({ alg := 7, hash_impl := .low_level } : s2n_hash_state) from by decide,
          applyUpdates_low7 (nominalEnv false) rfl prior _ rfl rfl]
        rfl
      rw [hR]
  · interval_cases alg
    · have hR : (s2n_hash_reset (nominalEnv true)
          (applyUpdates (nominalEnv true) (freshInit (nominalEnv true) 0) prior)).1
          = freshInit (nominalEnv true) 0 := by
        rw [show freshInit (nominalEnv true) 0
            = ({ hash_impl := .evp, evp := { ctx := some {} },
                 evp_md5_secondary := { ctx := some {} } } : s2n_hash_state) from by decide,
          applyUpdates_alg0 (nominalEnv true) prior _ rfl]
        rfl
      rw [hR]
    · exact absurd hok (by decide)
    · have hR : (s2n_hash_reset (nominalEnv true)
          (applyUpdates (nominalEnv true) (freshInit (nominalEnv true) 2) prior)).1
          = freshInit (nominalEnv true) 2 := by
        rw [show freshInit (nominalEnv true) 2
            = ({ alg := 2, hash_impl := .evp,
                 evp := { ctx := some { md := some .sha1 } },
                 evp_md5_secondary := { ctx := some {} } } : s2n_hash_state) from by decide,
          applyUpdates_evp_single (nominalEnv true) rfl prior _
            { md := some .sha1, data := [] } rfl (by decide) (by decide) rfl]
        rfl
      rw [hR]
    · have hR : (s2n_hash_reset (nominalEnv true)
          (applyUpdates (nominalEnv true) (freshInit (nominalEnv true) 3) prior)).1
          = freshInit (nominalEnv true) 3 := by
        rw [show freshInit (nominalEnv true) 3
            = ({ alg := 3, hash_impl := .evp,
                 evp := { ctx := some { md := some .sha224 } },
                 evp_md5_secondary := { ctx := some {} } } : s2n_hash_state) from by decide,
          applyUpdates_evp_single (nominalEnv true) rfl prior _
            { md := some .sha224, data := [] } rfl (by decide) (by decide) rfl]
        rfl
      rw [hR]
    · have hR : (s2n_hash_reset (nominalEnv true)
          (applyUpdates (nominalEnv true) (freshInit (nominalEnv true) 4) prior)).1
          = freshInit (nominalEnv true) 4 := by
        rw [show freshInit (nominalEnv true) 4
            = ({ alg := 4, hash_impl := .evp,
                 evp := { ctx := some { md := some .sha256 } },
                 evp_md5_secondary := { ctx := some {} } } : s2n_hash_state) from by decide,
          applyUpdates_evp_single (nominalEnv true) rfl prior _
            { md := some .sha256, data := [] } rfl (by decide) (by decide) rfl]
        rfl
      rw [hR]
    · have hR : (s2n_hash_reset (nominalEnv true)
          (applyUpdates (nominalEnv true) (freshInit (nominalEnv true) 5) prior)).1
          = freshInit (nominalEnv true) 5 := by
        rw [show freshInit (nominalEnv true) 5
            = ({ alg := 5, hash_impl := .evp,
                 evp := { ctx := some { md := some .sha384 } },
                 evp_md5_secondary := { ctx := some {} } } : s2n_hash_state) from by decide,
          applyUpdates_evp_single (nominalEnv true) rfl prior _
            { md := some .sha384, data := [] } rfl (by decide) (by decide) rfl]
        rfl
      rw [hR]
    · have hR : (s2n_hash_reset (nominalEnv true)
          (applyUpdates (nominalEnv true) (freshInit (nominalEnv true) 6) prior)).1
          = freshInit (nominalEnv true) 6 := by
        rw [show freshInit (nominalEnv true) 6
            = ({ alg := 6, hash_impl := .evp,
                 evp := { ctx := some { md := some .sha512 } },
                 evp_md5_secondary := { ctx := some {} } } : s2n_hash_state) from by decide,
          applyUpdates_evp_single (nominalEnv true) rfl prior _
            { md := some .sha512, data := [] } rfl (by decide) (by decide) rfl]
        rfl
      rw [hR]
    · exact absurd hok (by decide)

/-- Witness for C8 at the concrete instance: SHA256 under certified mode,
prior data `[1,2]` discarded by reset, then update `[3]`. -/
theorem claim_C8_witness :
    (s2n_hash_digest (nominalEnv true)
        (applyUpdates (nominalEnv true)
          (s2n_hash_reset (nominalEnv true)
            (applyUpdates (nominalEnv true) (freshInit (nominalEnv true) 4) [[1, 2]])).1
          [[3]])
        (digestSizeD 4)).2
      = (s2n_hash_digest (nominalEnv true)
          (applyUpdates (nominalEnv true) (freshInit (nominalEnv true) 4) [[3]])
          (digestSizeD 4)).2 :=
  claim_C8_reset_equivalence true 4 [[1, 2]] [[3]] (by decide) (by decide)

end S2nHash
